import Mathlib

/-
  Verification of the document state machine of the `tiger` sprite-sheet
  editor (files `src/state/document.rs`, `src/state/app.rs`).

  Shallow embedding conventions:
  * `Duration` values are modelled as natural numbers of milliseconds
    (every quantity the code manipulates goes through `as_millis`).
  * Rust `u32`/`u64`/`usize` become `Nat`; `i32` becomes `Int`, with the
    explicit truncating division `Int.div` standing for Rust's `/` on `i32`.
  * `f32` coordinates (mouse deltas, zoom factors) are modelled as exact
    rationals `Rat`; `floor`/`round` become `Rat.floor` / `round`.
  * File paths (`PathBuf`) are opaque identifiers, modelled as `Nat`.
  * `HashMap` snapshots inside gestures become association lists.
  * Fallible Rust functions returning `Result<(), Error>` on `&mut self`
    become pure functions `Document → Except StateError Document`.

  The sheet content model (`crate::sheet`), the view/transient/selection
  state (`crate::state::{view, selection, transient}`) and the error type
  are declared in the repository outside the provided sources; those
  definitions are modelled from the specification and are marked
  `Modelled from the spec:` in their doc comments.  Everything else is a
  direct translation of `src/state/document.rs`.
-/

attribute [local semireducible] Rat.mul Rat.inv Rat.add Rat.sub

/-- Decidable equality for `Except`, used to evaluate fallible operations on
concrete inputs. -/
def exceptDecEq {e a : Type} [DecidableEq e] [DecidableEq a] :
    DecidableEq (Except e a)
  | Except.ok x, Except.ok y =>
    if h : x = y then isTrue (by rw [h])
    else isFalse (fun hc => h (Except.ok.inj hc))
  | Except.error x, Except.error y =>
    if h : x = y then isTrue (by rw [h])
    else isFalse (fun hc => h (Except.error.inj hc))
  | Except.ok _, Except.error _ => isFalse (fun hc => Except.noConfusion hc)
  | Except.error _, Except.ok _ => isFalse (fun hc => Except.noConfusion hc)

instance {e a : Type} [DecidableEq e] [DecidableEq a] : DecidableEq (Except e a) :=
  exceptDecEq

namespace Tiger

/-- Integer 2D vector (`euclid::Vector2D<i32>`). -/
structure Vec2 where
  x : Int
  y : Int
deriving DecidableEq

/-- Rational 2D vector standing for `euclid::Vector2D<f32>`. -/
structure Vec2f where
  x : Rat
  y : Rat
deriving DecidableEq

def Vec2.add (a b : Vec2) : Vec2 := ⟨a.x + b.x, a.y + b.y⟩

def Vec2.scale (a : Vec2) (k : Int) : Vec2 := ⟨a.x * k, a.y * k⟩

def Vec2.toF (a : Vec2) : Vec2f := ⟨(a.x : Rat), (a.y : Rat)⟩

def Vec2f.add (a b : Vec2f) : Vec2f := ⟨a.x + b.x, a.y + b.y⟩

def Vec2f.divScalar (a : Vec2f) (k : Rat) : Vec2f := ⟨a.x / k, a.y / k⟩

def Vec2f.floorV (a : Vec2f) : Vec2 := ⟨Rat.floor a.x, Rat.floor a.y⟩

def Vec2f.roundV (a : Vec2f) : Vec2 := ⟨round a.x, round a.y⟩

/-- Modelled from the spec: a hitbox owned by a frame (`crate::sheet::Hitbox`):
a name, an integer position and an unsigned size. -/
structure Hitbox where
  name : String
  position : Vec2
  size : Nat × Nat
deriving DecidableEq

/-- Modelled from the spec: a frame of the sheet (`crate::sheet::Frame`):
a source path plus a mapping of hitbox name to hitbox. -/
structure Frame where
  source : Nat
  hitboxes : List Hitbox
deriving DecidableEq

/-- Modelled from the spec: a keyframe of an animation
(`crate::sheet::AnimationFrame`): a frame path, a duration in
milliseconds and a 2D offset. -/
structure Keyframe where
  frame : Nat
  duration : Nat
  offset : Vec2
deriving DecidableEq

/-- Modelled from the spec: an animation (`crate::sheet::Animation`): a name,
an ordered sequence of keyframes and a looping flag. -/
structure Animation where
  name : String
  timeline : List Keyframe
  is_looping : Bool
deriving DecidableEq

/-- Modelled from the spec: an export format choice (template file path). -/
inductive ExportFormat where
  | Template (path : Nat)
deriving DecidableEq

/-- Modelled from the spec: export settings carried by a sheet. -/
structure ExportSettings where
  texture_destination : Nat
  metadata_destination : Nat
  metadata_paths_root : Nat
  format : ExportFormat
deriving DecidableEq

/-- Modelled from the spec: default export settings (`ExportSettings::new`). -/
def ExportSettings.new : ExportSettings := ⟨0, 0, 0, ExportFormat.Template 0⟩

/-- Modelled from the spec: the sheet content (`crate::sheet::Sheet`): a
mapping from frame path to frame and from animation name to animation,
plus optional export settings.  Identity is structural value equality. -/
structure Sheet where
  frames : List Frame
  animations : List Animation
  export_settings : Option ExportSettings
deriving DecidableEq

instance : Inhabited Sheet := ⟨⟨[], [], none⟩⟩

namespace Sheet

def has_frame (s : Sheet) (path : Nat) : Bool :=
  s.frames.any (fun f => f.source == path)

def get_frame (s : Sheet) (path : Nat) : Option Frame :=
  s.frames.find? (fun f => f.source == path)

/-- Modelled from the spec: replace the frame stored at `path` (the
functional counterpart of `get_frame_mut`). -/
def set_frame (s : Sheet) (path : Nat) (fr : Frame) : Sheet :=
  { s with frames := s.frames.map (fun f => if f.source == path then fr else f) }

/-- Modelled from the spec: `Sheet::add_frame` inserts a new frame with no
hitboxes at the given path; it is a no-op when the path is already present. -/
def add_frame (s : Sheet) (path : Nat) : Sheet :=
  if s.has_frame path then s
  else { s with frames := s.frames ++ [⟨path, []⟩] }

def delete_frame (s : Sheet) (path : Nat) : Sheet :=
  { s with frames := s.frames.filter (fun f => !(f.source == path)) }

def has_animation (s : Sheet) (name : String) : Bool :=
  s.animations.any (fun a => a.name == name)

def get_animation (s : Sheet) (name : String) : Option Animation :=
  s.animations.find? (fun a => a.name == name)

/-- Modelled from the spec: replace the animation stored under `name`
(the functional counterpart of `get_animation_mut`). -/
def set_animation (s : Sheet) (name : String) (a : Animation) : Sheet :=
  { s with animations := s.animations.map (fun x => if x.name == name then a else x) }

def delete_animation (s : Sheet) (name : String) : Sheet :=
  { s with animations := s.animations.filter (fun a => !(a.name == name)) }

end Sheet

/-- Modelled from the spec: the error taxonomy of `crate::state::StateError`
(only the variants reachable from the embedded code). -/
inductive StateError where
  | DocumentNotFound
  | FrameNotInDocument
  | AnimationNotInDocument
  | InvalidHitboxName
  | InvalidKeyframeIndex
  | NotEditingAnyFrame
  | NotEditingAnyAnimation
  | NoKeyframeSelected
  | NoHitboxSelected
  | NotAdjustingKeyframeDuration
  | NotAdjustingKeyframePosition
  | NotAdjustingHitboxSize
  | NotAdjustingHitboxPosition
  | MissingKeyframeDurationData
  | MissingKeyframePositionData
  | MissingHitboxSizeData
  | MissingHitboxPositionData
  | NotRenaming
  | AnimationAlreadyExists
  | HitboxAlreadyExists
  | NoKeyframeForThisTime
  | NotExporting
  | UndoOperationNowAllowed
  | SheetError
deriving DecidableEq

namespace Animation

def get_name (a : Animation) : String := a.name

def is_looping_q (a : Animation) : Bool := a.is_looping

def set_is_looping (a : Animation) (b : Bool) : Animation := { a with is_looping := b }

def get_num_frames (a : Animation) : Nat := a.timeline.length

def get_frame (a : Animation) (index : Nat) : Option Keyframe := a.timeline.get? index

/-- Modelled from the spec: replace the keyframe at `index` (functional
counterpart of `get_frame_mut`). -/
def set_frame (a : Animation) (index : Nat) (k : Keyframe) : Animation :=
  { a with timeline := a.timeline.set index k }

/-- Modelled from the spec: `Animation::get_duration` is `None` when the
timeline is empty and otherwise the sum of the keyframe durations. -/
def get_duration (a : Animation) : Option Nat :=
  if a.timeline.isEmpty then none
  else some (a.timeline.foldl (fun acc k => acc + k.duration) 0)

/-- Cumulative start time of each keyframe (prefix sums of durations),
mirroring `Animation::get_frame_times`. -/
def frame_times_aux : Nat → List Keyframe → List Nat
  | _, [] => []
  | t, k :: ks => t :: frame_times_aux (t + k.duration) ks

def get_frame_times (a : Animation) : List Nat :=
  frame_times_aux 0 a.timeline

/-- Modelled from the spec: `Animation::get_frame_at` walks the timeline and
returns the index and keyframe whose time span contains the given clock
reading, `none` when the clock is at or past the end of the animation. -/
def get_frame_at_aux (t : Nat) : Nat → Nat → List Keyframe → Option (Nat × Keyframe)
  | _, _, [] => none
  | idx, cursor, k :: ks =>
    if t < cursor + k.duration then some (idx, k)
    else get_frame_at_aux t (idx + 1) (cursor + k.duration) ks

def get_frame_at (a : Animation) (t : Nat) : Option (Nat × Keyframe) :=
  get_frame_at_aux t 0 0 a.timeline

/-- Modelled from the spec: `Animation::create_frame` inserts a fresh
keyframe referencing `path` at the given index; fails when the index is
out of range.  The default keyframe duration is 100 ms. -/
def create_frame (a : Animation) (path : Nat) (index : Nat) : Except StateError Animation :=
  if index ≤ a.timeline.length then
    Except.ok { a with timeline := a.timeline.take index ++ [⟨path, 100, ⟨0, 0⟩⟩] ++ a.timeline.drop index }
  else Except.error StateError.SheetError

/-- Modelled from the spec: `Animation::take_frame` removes and returns the
keyframe at the given index, failing when it is out of range. -/
def take_frame (a : Animation) (index : Nat) : Except StateError (Keyframe × Animation) :=
  match a.timeline.get? index with
  | some k => Except.ok (k, { a with timeline := a.timeline.take index ++ a.timeline.drop (index + 1) })
  | none => Except.error StateError.SheetError

/-- Modelled from the spec: `Animation::insert_frame` inserts an existing
keyframe at the given index, failing when the index is out of range. -/
def insert_frame (a : Animation) (k : Keyframe) (index : Nat) : Except StateError Animation :=
  if index ≤ a.timeline.length then
    Except.ok { a with timeline := a.timeline.take index ++ [k] ++ a.timeline.drop index }
  else Except.error StateError.SheetError

end Animation

namespace Frame

def get_source (f : Frame) : Nat := f.source

def has_hitbox (f : Frame) (name : String) : Bool :=
  f.hitboxes.any (fun h => h.name == name)

def get_hitbox (f : Frame) (name : String) : Option Hitbox :=
  f.hitboxes.find? (fun h => h.name == name)

/-- Modelled from the spec: replace the hitbox stored under `name`
(functional counterpart of `get_hitbox_mut`). -/
def set_hitbox (f : Frame) (name : String) (h : Hitbox) : Frame :=
  { f with hitboxes := f.hitboxes.map (fun x => if x.name == name then h else x) }

/-- Modelled from the spec: fresh hitbox names tried by `Frame::add_hitbox`:
a numbered sequence of placeholder names. -/
def fresh_hitbox_name_aux (f : Frame) : Nat → Nat → String
  | _, 0 => "New Hitbox"
  | n, fuel + 1 =>
    let candidate := "New Hitbox " ++ toString n
    if f.has_hitbox candidate then fresh_hitbox_name_aux f (n + 1) fuel else candidate

def fresh_hitbox_name (f : Frame) : String :=
  if f.has_hitbox "New Hitbox" then
    fresh_hitbox_name_aux f 2 (f.hitboxes.length + 1)
  else "New Hitbox"

/-- Modelled from the spec: `Frame::add_hitbox` appends a hitbox with a fresh
placeholder name, zero position and zero size, returning it with the frame. -/
def add_hitbox (f : Frame) : Hitbox × Frame :=
  let h : Hitbox := ⟨f.fresh_hitbox_name, ⟨0, 0⟩, (0, 0)⟩
  (h, { f with hitboxes := f.hitboxes ++ [h] })

/-- Modelled from the spec: `Frame::rename_hitbox` renames the hitbox called
`old_name`, failing when it does not exist. -/
def rename_hitbox (f : Frame) (old_name new_name : String) : Except StateError Frame :=
  match f.get_hitbox old_name with
  | some h => Except.ok (f.set_hitbox old_name { h with name := new_name })
  | none => Except.error StateError.SheetError

def delete_hitbox (f : Frame) (name : String) : Frame :=
  { f with hitboxes := f.hitboxes.filter (fun h => !(h.name == name)) }

end Frame

namespace Sheet

/-- Modelled from the spec: fresh animation names tried by
`Sheet::add_animation`: a numbered sequence of placeholder names. -/
def fresh_animation_name_aux (s : Sheet) : Nat → Nat → String
  | _, 0 => "New Animation"
  | n, fuel + 1 =>
    let candidate := "New Animation " ++ toString n
    if s.has_animation candidate then fresh_animation_name_aux s (n + 1) fuel else candidate

def fresh_animation_name (s : Sheet) : String :=
  if s.has_animation "New Animation" then
    fresh_animation_name_aux s 2 (s.animations.length + 1)
  else "New Animation"

/-- Modelled from the spec: `Sheet::add_animation` appends an empty,
non-looping animation with a fresh placeholder name and returns it. -/
def add_animation (s : Sheet) : Animation × Sheet :=
  let a : Animation := ⟨s.fresh_animation_name, [], false⟩
  (a, { s with animations := s.animations ++ [a] })

/-- Modelled from the spec: `Sheet::rename_animation` renames the animation
called `old_name`, failing when it does not exist. -/
def rename_animation (s : Sheet) (old_name new_name : String) : Except StateError Sheet :=
  match s.get_animation old_name with
  | some a => Except.ok (s.set_animation old_name { a with name := new_name })
  | none => Except.error StateError.SheetError

def delete_hitbox (s : Sheet) (frame_path : Nat) (name : String) : Sheet :=
  match s.get_frame frame_path with
  | some f => s.set_frame frame_path (f.delete_hitbox name)
  | none => s

def delete_keyframe (s : Sheet) (animation_name : String) (index : Nat) : Sheet :=
  match s.get_animation animation_name with
  | some a =>
    s.set_animation animation_name
      { a with timeline := a.timeline.take index ++ a.timeline.drop (index + 1) }
  | none => s

def get_export_settings (s : Sheet) : Option ExportSettings := s.export_settings

def set_export_settings (s : Sheet) (e : ExportSettings) : Sheet :=
  { s with export_settings := some e }

end Sheet

/-- Modelled from the spec: `MultiSelection<K>`: a set of selected
identifiers (modelled as a list) plus the anchor that was last touched. -/
structure MultiSelection (K : Type) where
  items : List K
  last_touched_in_range : K
deriving DecidableEq

/-- Modelled from the spec: `MultiSelection::new` builds a selection from a
list of identifiers, anchored at the last one. -/
def MultiSelection.new [Inhabited K] (items : List K) : MultiSelection K :=
  ⟨items, items.getLastD default⟩

/-- Modelled from the spec: the tagged selection variants
(frame paths, animation names, hitbox names, keyframe indices). -/
inductive Selection where
  | Frame (s : MultiSelection Nat)
  | Animation (s : MultiSelection String)
  | Hitbox (s : MultiSelection String)
  | Keyframe (s : MultiSelection Nat)
deriving DecidableEq

/-- Modelled from the spec: the current workbench subject. -/
inductive WorkbenchItem where
  | Frame (path : Nat)
  | Animation (name : String)
deriving DecidableEq

/-- Modelled from the spec: the active content tab of the left panel. -/
inductive ContentTab where
  | Frames
  | Animations
deriving DecidableEq

/-- Modelled from the spec: the 8 resize handles of a hitbox scale gesture. -/
inductive ResizeAxis where
  | N | S | W | E | NW | NE | SE | SW
deriving DecidableEq

def ResizeAxis.is_diagonal : ResizeAxis → Bool
  | NW | NE | SE | SW => true
  | _ => false

/-- Modelled from the spec: per-document, undo-recorded UI state
(`crate::state::View`): workbench subject, zoom/pan, timeline clock,
selection and active content tab.  Zoom levels are positive naturals;
zooming in doubles the level (capped), zooming out halves it (floored). -/
structure View where
  content_tab : ContentTab
  selection : Option Selection
  workbench_item : Option WorkbenchItem
  workbench_offset : Vec2f
  workbench_zoom_level : Nat
  timeline_zoom_level : Nat
  timeline_clock : Nat
deriving DecidableEq

instance : Inhabited View :=
  ⟨⟨ContentTab.Frames, none, none, ⟨0, 0⟩, 1, 1, 0⟩⟩

namespace View

def get_workbench_zoom_factor (v : View) : Rat := (v.workbench_zoom_level : Rat)

def workbench_zoom_in (v : View) : View :=
  { v with workbench_zoom_level := min (v.workbench_zoom_level * 2) 32 }

def workbench_zoom_out (v : View) : View :=
  { v with workbench_zoom_level := max (v.workbench_zoom_level / 2) 1 }

def workbench_reset_zoom (v : View) : View := { v with workbench_zoom_level := 1 }

def workbench_center (v : View) : View := { v with workbench_offset := ⟨0, 0⟩ }

def pan (v : View) (delta : Vec2f) : View :=
  { v with workbench_offset := v.workbench_offset.add delta }

def timeline_zoom_in (v : View) : View :=
  { v with timeline_zoom_level := min (v.timeline_zoom_level * 2) 32 }

def timeline_zoom_out (v : View) : View :=
  { v with timeline_zoom_level := max (v.timeline_zoom_level / 2) 1 }

def timeline_reset_zoom (v : View) : View := { v with timeline_zoom_level := 1 }

end View

/-- Modelled from the spec: the rename gesture state. -/
structure Rename where
  new_name : String
deriving DecidableEq

/-- Modelled from the spec: the duration-drag gesture state: the initial
duration of every selected keyframe, the index being dragged and the
timeline clock reading at drag start. -/
structure KeyframeDuration where
  initial_duration : List (Nat × Nat)
  frame_being_dragged : Nat
  reference_clock : Nat
deriving DecidableEq

/-- Modelled from the spec: the keyframe-offset-drag gesture state. -/
structure KeyframePosition where
  initial_offset : List (Nat × Vec2)
deriving DecidableEq

/-- Modelled from the spec: the hitbox-drag gesture state. -/
structure HitboxPosition where
  initial_offset : List (String × Vec2)
deriving DecidableEq

/-- Modelled from the spec: position and size snapshot of a hitbox taken when
a scale gesture begins. -/
structure HitboxInitialState where
  position : Vec2
  size : Nat × Nat
deriving DecidableEq

/-- Modelled from the spec: the hitbox-scale gesture state. -/
structure HitboxSize where
  axis : ResizeAxis
  initial_state : List (String × HitboxInitialState)
deriving DecidableEq

/-- Modelled from the spec: the mutually exclusive in-progress gesture states
(`crate::state::Transient`), excluded from undo history. -/
inductive Transient where
  | ContentFramesDrag
  | TimelineFrameDrag
  | TimelineScrub
  | Rename (r : Rename)
  | KeyframeDuration (k : KeyframeDuration)
  | KeyframePosition (k : KeyframePosition)
  | HitboxPosition (h : HitboxPosition)
  | HitboxSize (h : HitboxSize)
deriving DecidableEq

set_option maxHeartbeats 1600000 in
/-- The document-addressed command family dispatched by
`Document::process_command` (one constructor per match arm). -/
inductive DocumentCommand where
  | MarkAsSaved (p : Nat) (v : Int)
  | EndImport (p : Nat) (f : Nat)
  | BeginExportAs
  | CancelExportAs
  | EndSetExportTextureDestination (p : Nat) (dst : Nat)
  | EndSetExportMetadataDestination (p : Nat) (dst : Nat)
  | EndSetExportMetadataPathsRoot (p : Nat) (dst : Nat)
  | EndSetExportFormat (p : Nat) (f : ExportFormat)
  | EndExportAs
  | SwitchToContentTab (t : ContentTab)
  | ClearSelection
  | SelectFrames (s : MultiSelection Nat)
  | SelectAnimations (s : MultiSelection String)
  | SelectHitboxes (s : MultiSelection String)
  | SelectKeyframes (s : MultiSelection Nat)
  | EditFrame (p : Nat)
  | EditAnimation (a : String)
  | CreateAnimation
  | BeginFramesDrag
  | InsertKeyframesBefore (frames : List Nat) (n : Nat)
  | ReorderKeyframes (i : Nat)
  | BeginKeyframeDurationDrag (c : Nat) (i : Nat)
  | UpdateKeyframeDurationDrag (d : Nat) (m : Nat)
  | BeginKeyframeDrag
  | BeginKeyframeOffsetDrag
  | UpdateKeyframeOffsetDrag (o : Vec2f) (b : Bool)
  | WorkbenchZoomIn
  | WorkbenchZoomOut
  | WorkbenchResetZoom
  | WorkbenchCenter
  | Pan (delta : Vec2f)
  | CreateHitbox (p : Vec2f)
  | BeginHitboxScale (axis : ResizeAxis)
  | UpdateHitboxScale (delta : Vec2f) (ar : Bool)
  | BeginHitboxDrag
  | UpdateHitboxDrag (delta : Vec2f) (b : Bool)
  | TogglePlayback
  | SnapToPreviousFrame
  | SnapToNextFrame
  | ToggleLooping
  | TimelineZoomIn
  | TimelineZoomOut
  | TimelineResetZoom
  | BeginScrub
  | UpdateScrub (t : Nat)
  | NudgeSelection (d : Vec2) (l : Bool)
  | DeleteSelection
  | BeginRenameSelection
  | UpdateRenameSelection (n : String)
  | EndRenameSelection
  | Close
  | CloseAfterSaving
  | CloseWithoutSaving
  | CancelClose
  | EndFramesDrag
  | EndKeyframeDurationDrag
  | EndKeyframeDrag
  | EndKeyframeOffsetDrag
  | EndHitboxScale
  | EndHitboxDrag
  | EndScrub

/-- A flat record holding every payload a `DocumentCommand` can carry plus a
constructor tag; commands embed into it injectively, giving a decidable
equality whose term stays shallow. -/
structure CmdCode where
  tag : Nat
  n1 : Nat
  n2 : Nat
  i1 : Int
  s1 : String
  b1 : Bool
  ln : List Nat
  ls : List String
  fmt : ExportFormat
  tab : ContentTab
  axis : ResizeAxis
  vf : Vec2f
  vi : Vec2
deriving DecidableEq

/-- The all-defaults code; `DocumentCommand.enc` overwrites the fields a
constructor actually uses. -/
def CmdCode.base : CmdCode :=
  ⟨0, 0, 0, 0, "", false, [], [], ExportFormat.Template 0, ContentTab.Frames,
    ResizeAxis.N, ⟨0, 0⟩, ⟨0, 0⟩⟩

/-- Injective encoding of a command into `CmdCode`. -/
def DocumentCommand.enc : DocumentCommand → CmdCode
  | DocumentCommand.MarkAsSaved p v => { CmdCode.base with tag := 0, n1 := p, i1 := v }
  | DocumentCommand.EndImport p f => { CmdCode.base with tag := 1, n1 := p, n2 := f }
  | DocumentCommand.BeginExportAs => { CmdCode.base with tag := 2 }
  | DocumentCommand.CancelExportAs => { CmdCode.base with tag := 3 }
  | DocumentCommand.EndSetExportTextureDestination p dst =>
    { CmdCode.base with tag := 4, n1 := p, n2 := dst }
  | DocumentCommand.EndSetExportMetadataDestination p dst =>
    { CmdCode.base with tag := 5, n1 := p, n2 := dst }
  | DocumentCommand.EndSetExportMetadataPathsRoot p dst =>
    { CmdCode.base with tag := 6, n1 := p, n2 := dst }
  | DocumentCommand.EndSetExportFormat p f =>
    { CmdCode.base with tag := 7, n1 := p, fmt := f }
  | DocumentCommand.EndExportAs => { CmdCode.base with tag := 8 }
  | DocumentCommand.SwitchToContentTab t => { CmdCode.base with tag := 9, tab := t }
  | DocumentCommand.ClearSelection => { CmdCode.base with tag := 10 }
  | DocumentCommand.SelectFrames s =>
    { CmdCode.base with tag := 11, ln := s.items, n1 := s.last_touched_in_range }
  | DocumentCommand.SelectAnimations s =>
    { CmdCode.base with tag := 12, ls := s.items, s1 := s.last_touched_in_range }
  | DocumentCommand.SelectHitboxes s =>
    { CmdCode.base with tag := 13, ls := s.items, s1 := s.last_touched_in_range }
  | DocumentCommand.SelectKeyframes s =>
    { CmdCode.base with tag := 14, ln := s.items, n1 := s.last_touched_in_range }
  | DocumentCommand.EditFrame p => { CmdCode.base with tag := 15, n1 := p }
  | DocumentCommand.EditAnimation a => { CmdCode.base with tag := 16, s1 := a }
  | DocumentCommand.CreateAnimation => { CmdCode.base with tag := 17 }
  | DocumentCommand.BeginFramesDrag => { CmdCode.base with tag := 18 }
  | DocumentCommand.InsertKeyframesBefore frames n =>
    { CmdCode.base with tag := 19, ln := frames, n1 := n }
  | DocumentCommand.ReorderKeyframes i => { CmdCode.base with tag := 20, n1 := i }
  | DocumentCommand.BeginKeyframeDurationDrag c i =>
    { CmdCode.base with tag := 21, n1 := c, n2 := i }
  | DocumentCommand.UpdateKeyframeDurationDrag d m =>
    { CmdCode.base with tag := 22, n1 := d, n2 := m }
  | DocumentCommand.BeginKeyframeDrag => { CmdCode.base with tag := 23 }
  | DocumentCommand.BeginKeyframeOffsetDrag => { CmdCode.base with tag := 24 }
  | DocumentCommand.UpdateKeyframeOffsetDrag o b =>
    { CmdCode.base with tag := 25, vf := o, b1 := b }
  | DocumentCommand.WorkbenchZoomIn => { CmdCode.base with tag := 26 }
  | DocumentCommand.WorkbenchZoomOut => { CmdCode.base with tag := 27 }
  | DocumentCommand.WorkbenchResetZoom => { CmdCode.base with tag := 28 }
  | DocumentCommand.WorkbenchCenter => { CmdCode.base with tag := 29 }
  | DocumentCommand.Pan delta => { CmdCode.base with tag := 30, vf := delta }
  | DocumentCommand.CreateHitbox p => { CmdCode.base with tag := 31, vf := p }
  | DocumentCommand.BeginHitboxScale ax => { CmdCode.base with tag := 32, axis := ax }
  | DocumentCommand.UpdateHitboxScale delta ar =>
    { CmdCode.base with tag := 33, vf := delta, b1 := ar }
  | DocumentCommand.BeginHitboxDrag => { CmdCode.base with tag := 34 }
  | DocumentCommand.UpdateHitboxDrag delta b =>
    { CmdCode.base with tag := 35, vf := delta, b1 := b }
  | DocumentCommand.TogglePlayback => { CmdCode.base with tag := 36 }
  | DocumentCommand.SnapToPreviousFrame => { CmdCode.base with tag := 37 }
  | DocumentCommand.SnapToNextFrame => { CmdCode.base with tag := 38 }
  | DocumentCommand.ToggleLooping => { CmdCode.base with tag := 39 }
  | DocumentCommand.TimelineZoomIn => { CmdCode.base with tag := 40 }
  | DocumentCommand.TimelineZoomOut => { CmdCode.base with tag := 41 }
  | DocumentCommand.TimelineResetZoom => { CmdCode.base with tag := 42 }
  | DocumentCommand.BeginScrub => { CmdCode.base with tag := 43 }
  | DocumentCommand.UpdateScrub t => { CmdCode.base with tag := 44, n1 := t }
  | DocumentCommand.NudgeSelection d l =>
    { CmdCode.base with tag := 45, vi := d, b1 := l }
  | DocumentCommand.DeleteSelection => { CmdCode.base with tag := 46 }
  | DocumentCommand.BeginRenameSelection => { CmdCode.base with tag := 47 }
  | DocumentCommand.UpdateRenameSelection n => { CmdCode.base with tag := 48, s1 := n }
  | DocumentCommand.EndRenameSelection => { CmdCode.base with tag := 49 }
  | DocumentCommand.Close => { CmdCode.base with tag := 50 }
  | DocumentCommand.CloseAfterSaving => { CmdCode.base with tag := 51 }
  | DocumentCommand.CloseWithoutSaving => { CmdCode.base with tag := 52 }
  | DocumentCommand.CancelClose => { CmdCode.base with tag := 53 }
  | DocumentCommand.EndFramesDrag => { CmdCode.base with tag := 54 }
  | DocumentCommand.EndKeyframeDurationDrag => { CmdCode.base with tag := 55 }
  | DocumentCommand.EndKeyframeDrag => { CmdCode.base with tag := 56 }
  | DocumentCommand.EndKeyframeOffsetDrag => { CmdCode.base with tag := 57 }
  | DocumentCommand.EndHitboxScale => { CmdCode.base with tag := 58 }
  | DocumentCommand.EndHitboxDrag => { CmdCode.base with tag := 59 }
  | DocumentCommand.EndScrub => { CmdCode.base with tag := 60 }

/-- Left inverse of `DocumentCommand.enc`. -/
def DocumentCommand.decode (c : CmdCode) : DocumentCommand :=
  match c.tag with
  | 0 => DocumentCommand.MarkAsSaved c.n1 c.i1
  | 1 => DocumentCommand.EndImport c.n1 c.n2
  | 2 => DocumentCommand.BeginExportAs
  | 3 => DocumentCommand.CancelExportAs
  | 4 => DocumentCommand.EndSetExportTextureDestination c.n1 c.n2
  | 5 => DocumentCommand.EndSetExportMetadataDestination c.n1 c.n2
  | 6 => DocumentCommand.EndSetExportMetadataPathsRoot c.n1 c.n2
  | 7 => DocumentCommand.EndSetExportFormat c.n1 c.fmt
  | 8 => DocumentCommand.EndExportAs
  | 9 => DocumentCommand.SwitchToContentTab c.tab
  | 10 => DocumentCommand.ClearSelection
  | 11 => DocumentCommand.SelectFrames ⟨c.ln, c.n1⟩
  | 12 => DocumentCommand.SelectAnimations ⟨c.ls, c.s1⟩
  | 13 => DocumentCommand.SelectHitboxes ⟨c.ls, c.s1⟩
  | 14 => DocumentCommand.SelectKeyframes ⟨c.ln, c.n1⟩
  | 15 => DocumentCommand.EditFrame c.n1
  | 16 => DocumentCommand.EditAnimation c.s1
  | 17 => DocumentCommand.CreateAnimation
  | 18 => DocumentCommand.BeginFramesDrag
  | 19 => DocumentCommand.InsertKeyframesBefore c.ln c.n1
  | 20 => DocumentCommand.ReorderKeyframes c.n1
  | 21 => DocumentCommand.BeginKeyframeDurationDrag c.n1 c.n2
  | 22 => DocumentCommand.UpdateKeyframeDurationDrag c.n1 c.n2
  | 23 => DocumentCommand.BeginKeyframeDrag
  | 24 => DocumentCommand.BeginKeyframeOffsetDrag
  | 25 => DocumentCommand.UpdateKeyframeOffsetDrag c.vf c.b1
  | 26 => DocumentCommand.WorkbenchZoomIn
  | 27 => DocumentCommand.WorkbenchZoomOut
  | 28 => DocumentCommand.WorkbenchResetZoom
  | 29 => DocumentCommand.WorkbenchCenter
  | 30 => DocumentCommand.Pan c.vf
  | 31 => DocumentCommand.CreateHitbox c.vf
  | 32 => DocumentCommand.BeginHitboxScale c.axis
  | 33 => DocumentCommand.UpdateHitboxScale c.vf c.b1
  | 34 => DocumentCommand.BeginHitboxDrag
  | 35 => DocumentCommand.UpdateHitboxDrag c.vf c.b1
  | 36 => DocumentCommand.TogglePlayback
  | 37 => DocumentCommand.SnapToPreviousFrame
  | 38 => DocumentCommand.SnapToNextFrame
  | 39 => DocumentCommand.ToggleLooping
  | 40 => DocumentCommand.TimelineZoomIn
  | 41 => DocumentCommand.TimelineZoomOut
  | 42 => DocumentCommand.TimelineResetZoom
  | 43 => DocumentCommand.BeginScrub
  | 44 => DocumentCommand.UpdateScrub c.n1
  | 45 => DocumentCommand.NudgeSelection c.vi c.b1
  | 46 => DocumentCommand.DeleteSelection
  | 47 => DocumentCommand.BeginRenameSelection
  | 48 => DocumentCommand.UpdateRenameSelection c.s1
  | 49 => DocumentCommand.EndRenameSelection
  | 50 => DocumentCommand.Close
  | 51 => DocumentCommand.CloseAfterSaving
  | 52 => DocumentCommand.CloseWithoutSaving
  | 53 => DocumentCommand.CancelClose
  | 54 => DocumentCommand.EndFramesDrag
  | 55 => DocumentCommand.EndKeyframeDurationDrag
  | 56 => DocumentCommand.EndKeyframeDrag
  | 57 => DocumentCommand.EndKeyframeOffsetDrag
  | 58 => DocumentCommand.EndHitboxScale
  | 59 => DocumentCommand.EndHitboxDrag
  | _ => DocumentCommand.EndScrub

theorem DocumentCommand.decode_enc (a : DocumentCommand) :
    DocumentCommand.decode (DocumentCommand.enc a) = a := by
  cases a <;> rfl

instance : DecidableEq DocumentCommand := fun a b =>
  if h : DocumentCommand.enc a = DocumentCommand.enc b then
    isTrue (by
      rw [← DocumentCommand.decode_enc a, ← DocumentCommand.decode_enc b, h])
  else isFalse (fun hc => h (congrArg DocumentCommand.enc hc))

/-- Modelled from the spec: `Transient::is_transient_command`, the allow-list
of transient-preserving commands: the `Update*`/`Begin*` gesture commands and
`UpdateRenameSelection`; every other command implicitly cancels any
in-progress gesture. -/
def Transient.is_transient_command : DocumentCommand → Bool
  | DocumentCommand.BeginFramesDrag
  | DocumentCommand.BeginKeyframeDurationDrag _ _
  | DocumentCommand.BeginKeyframeDrag
  | DocumentCommand.BeginKeyframeOffsetDrag
  | DocumentCommand.BeginHitboxScale _
  | DocumentCommand.BeginHitboxDrag
  | DocumentCommand.BeginScrub
  | DocumentCommand.BeginRenameSelection
  | DocumentCommand.UpdateKeyframeDurationDrag _ _
  | DocumentCommand.UpdateKeyframeOffsetDrag _ _
  | DocumentCommand.UpdateHitboxScale _ _
  | DocumentCommand.UpdateHitboxDrag _ _
  | DocumentCommand.UpdateScrub _
  | DocumentCommand.UpdateRenameSelection _ => true
  | _ => false

/-- `CloseState` from `src/state/document.rs`. -/
inductive CloseState where
  | Requested
  | Saving
  | Allowed
deriving DecidableEq

/-- `Persistent` from `src/state/document.rs`: per-document state that is
neither content nor undo-recorded view state. -/
structure Persistent where
  export_settings_edit : Option ExportSettings
  close_state : Option CloseState
  timeline_is_playing : Bool
  disk_version : Int
deriving DecidableEq

instance : Inhabited Persistent := ⟨⟨none, none, false, 0⟩⟩

/-- `HistoryEntry` from `src/state/document.rs`. -/
structure HistoryEntry where
  last_command : Option DocumentCommand
  sheet : Sheet
  view : View
  version : Int
deriving DecidableEq

instance : Inhabited HistoryEntry := ⟨⟨none, default, default, 0⟩⟩

/-- `Document` from `src/state/document.rs`. -/
structure Document where
  source : Nat
  sheet : Sheet
  view : View
  transient : Option Transient
  persistent : Persistent
  next_version : Int
  history : List HistoryEntry
  history_index : Nat
deriving DecidableEq

namespace Document

/-- `Document::new`. -/
def new (path : Nat) : Document :=
  let history_entry : HistoryEntry := default
  { source := path
    history := [history_entry]
    sheet := history_entry.sheet
    view := history_entry.view
    transient := none
    persistent := default
    next_version := history_entry.version
    history_index := 0 }

/-- The entry `self.history[self.history_index]` (in-bounds under the
documented invariant). -/
def top_entry (d : Document) : HistoryEntry :=
  d.history.getD d.history_index default

def get_version (d : Document) : Int := d.top_entry.version

def is_saved (d : Document) : Bool := d.persistent.disk_version == d.get_version

/-- `Document::advance_timeline` (durations in milliseconds). -/
def advance_timeline (d : Document) (delta : Nat) : Document :=
  if d.persistent.timeline_is_playing then
    let d := { d with view := { d.view with timeline_clock := d.view.timeline_clock + delta } }
    match d.view.workbench_item with
    | some (WorkbenchItem.Animation animation_name) =>
      match d.sheet.get_animation animation_name with
      | some animation =>
        let clock_ms := d.view.timeline_clock
        match animation.get_duration with
        | some dur =>
          if dur > 0 then
            if animation.is_looping then
              { d with view := { d.view with timeline_clock := clock_ms % dur } }
            else if clock_ms ≥ dur then
              { d with persistent := { d.persistent with timeline_is_playing := false },
                       view := { d.view with timeline_clock := dur } }
            else d
          else
            { d with persistent := { d.persistent with timeline_is_playing := false },
                     view := { d.view with timeline_clock := 0 } }
        | none =>
          { d with persistent := { d.persistent with timeline_is_playing := false },
                   view := { d.view with timeline_clock := 0 } }
      | none => d
    | _ => d
  else d

/-- `Document::try_close`. -/
def try_close (d : Document) : Document :=
  if d.persistent.close_state = some CloseState.Saving ∧ d.is_saved then
    { d with persistent := { d.persistent with close_state := some CloseState.Allowed } }
  else d

/-- `Document::tick`. -/
def tick (d : Document) (delta : Nat) : Document :=
  (d.advance_timeline delta).try_close

/-- The eviction loop of `push_undo_state`:
`while history.len() > 100 { history.remove(0); history_index -= 1 }`. -/
def cap_history : List HistoryEntry → Nat → List HistoryEntry × Nat
  | [], i => ([], i)
  | x :: t, i => if (x :: t).length > 100 then cap_history t (i - 1) else (x :: t, i)

/-- `Document::push_undo_state`. -/
def push_undo_state (d : Document) (entry : HistoryEntry) : Document :=
  let h := d.history.take (d.history_index + 1) ++ [entry]
  let r := cap_history h (h.length - 1)
  { d with history := r.1, history_index := r.2 }

def can_use_undo_system (d : Document) : Bool := d.transient.isNone

/-- `Document::record_command`. -/
def record_command (d : Document) (command : DocumentCommand) (nd : Document) : Document :=
  let d1 := { d with sheet := nd.sheet, view := nd.view,
                     transient := nd.transient, persistent := nd.persistent }
  if d1.can_use_undo_system then
    let has_sheet_changes : Bool := d1.top_entry.sheet ≠ nd.sheet
    let d2 := if has_sheet_changes then { d1 with next_version := d1.next_version + 1 } else d1
    let new_undo_state : HistoryEntry :=
      { sheet := nd.sheet, view := nd.view, last_command := some command, version := d2.next_version }
    if has_sheet_changes then
      d2.push_undo_state new_undo_state
    else if d2.top_entry.view ≠ new_undo_state.view then
      if d2.history_index > 0 ∧
          (d2.history.getD (d2.history_index - 1) default).sheet = d2.top_entry.sheet then
        { d2 with history :=
            d2.history.set d2.history_index ({ d2.top_entry with view := new_undo_state.view }) }
      else d2.push_undo_state new_undo_state
    else d2
  else d1

/-- `Document::undo`. -/
def undo (d : Document) : Document × Option StateError :=
  if !d.can_use_undo_system then (d, some StateError.UndoOperationNowAllowed)
  else if d.history_index > 0 then
    let i := d.history_index - 1
    ({ d with history_index := i,
              sheet := (d.history.getD i default).sheet,
              view := (d.history.getD i default).view,
              persistent := { d.persistent with timeline_is_playing := false } }, none)
  else (d, none)

/-- `Document::redo`. -/
def redo (d : Document) : Document × Option StateError :=
  if !d.can_use_undo_system then (d, some StateError.UndoOperationNowAllowed)
  else if d.history_index < d.history.length - 1 then
    let i := d.history_index + 1
    ({ d with history_index := i,
              sheet := (d.history.getD i default).sheet,
              view := (d.history.getD i default).view,
              persistent := { d.persistent with timeline_is_playing := false } }, none)
  else (d, none)

/-- `Document::get_workbench_frame`. -/
def get_workbench_frame (d : Document) : Except StateError Frame :=
  match d.view.workbench_item with
  | some (WorkbenchItem.Frame path) =>
    match d.sheet.get_frame path with
    | some f => Except.ok f
    | none => Except.error StateError.FrameNotInDocument
  | _ => Except.error StateError.NotEditingAnyFrame

/-- `Document::get_workbench_animation`. -/
def get_workbench_animation (d : Document) : Except StateError Animation :=
  match d.view.workbench_item with
  | some (WorkbenchItem.Animation n) =>
    match d.sheet.get_animation n with
    | some a => Except.ok a
    | none => Except.error StateError.AnimationNotInDocument
  | _ => Except.error StateError.NotEditingAnyAnimation

/-- `Document::clear_selection`. -/
def clear_selection (d : Document) : Document :=
  { d with view := { d.view with selection := none } }

/-- `Document::select_frames`: fails on the first path that names no frame. -/
def select_frames (d : Document) (paths : MultiSelection Nat) : Except StateError Document :=
  match paths.items.find? (fun p => !(d.sheet.has_frame p)) with
  | some _ => Except.error StateError.FrameNotInDocument
  | none =>
    if paths.items.isEmpty then Except.ok d.clear_selection
    else Except.ok { d with view := { d.view with selection := some (Selection.Frame paths) } }

/-- `Document::select_animations`. -/
def select_animations (d : Document) (names : MultiSelection String) : Except StateError Document :=
  match names.items.find? (fun n => !(d.sheet.has_animation n)) with
  | some _ => Except.error StateError.AnimationNotInDocument
  | none =>
    if names.items.isEmpty then Except.ok d.clear_selection
    else Except.ok { d with view := { d.view with selection := some (Selection.Animation names) } }

/-- `Document::select_hitboxes`. -/
def select_hitboxes (d : Document) (names : MultiSelection String) : Except StateError Document :=
  match d.view.workbench_item with
  | some (WorkbenchItem.Frame frame_path) =>
    match d.sheet.get_frame frame_path with
    | none => Except.error StateError.FrameNotInDocument
    | some frame =>
      match names.items.find? (fun n => !(frame.has_hitbox n)) with
      | some _ => Except.error StateError.InvalidHitboxName
      | none =>
        if names.items.isEmpty then Except.ok d.clear_selection
        else Except.ok { d with view := { d.view with selection := some (Selection.Hitbox names) } }
  | _ => Except.error StateError.NotEditingAnyFrame

/-- `Document::select_keyframes`. -/
def select_keyframes (d : Document) (frame_indexes : MultiSelection Nat) : Except StateError Document :=
  if frame_indexes.items.isEmpty then Except.ok d.clear_selection
  else
    let d := { d with view := { d.view with selection := some (Selection.Keyframe frame_indexes) } }
    match d.get_workbench_animation with
    | Except.error e => Except.error e
    | Except.ok animation =>
      let keyframe_index := frame_indexes.last_touched_in_range
      match animation.get_frame_times.get? keyframe_index with
      | none => Except.error StateError.InvalidKeyframeIndex
      | some frame_start_time =>
        match animation.get_frame keyframe_index with
        | none => Except.error StateError.InvalidKeyframeIndex
        | some keyframe =>
          let duration := keyframe.duration
          let clock := d.view.timeline_clock
          if d.persistent.timeline_is_playing = false ∧
              ¬(frame_start_time ≤ clock ∧
                (clock < frame_start_time + duration ∨
                  keyframe_index = animation.get_num_frames - 1)) then
            Except.ok { d with view := { d.view with timeline_clock := frame_start_time } }
          else Except.ok d

/-- `Document::edit_frame`. -/
def edit_frame (d : Document) (path : Nat) : Except StateError Document :=
  if !d.sheet.has_frame path then Except.error StateError.FrameNotInDocument
  else Except.ok { d with view := { d.view with
    workbench_item := some (WorkbenchItem.Frame path), workbench_offset := ⟨0, 0⟩ } }

/-- `Document::edit_animation`. -/
def edit_animation (d : Document) (name : String) : Except StateError Document :=
  if !d.sheet.has_animation name then Except.error StateError.AnimationNotInDocument
  else Except.ok
    { d with
      view := { d.view with
        workbench_item := some (WorkbenchItem.Animation name)
        workbench_offset := ⟨0, 0⟩
        timeline_clock := 0 }
      persistent := { d.persistent with timeline_is_playing := false } }

/-- `Document::begin_rename`. -/
def begin_rename (d : Document) (old_name : String) : Document :=
  { d with transient := some (Transient.Rename ⟨old_name⟩) }

/-- `Document::create_animation`. -/
def create_animation (d : Document) : Except StateError Document :=
  let r := d.sheet.add_animation
  let animation_name := r.1.name
  let d := { d with sheet := r.2 }
  match d.select_animations (MultiSelection.new [animation_name]) with
  | Except.error e => Except.error e
  | Except.ok d => (d.begin_rename animation_name).edit_animation animation_name

/-- Loop body of `insert_keyframes_before` (called on the reversed path list). -/
def insert_keyframes_loop (animation_name : String) (next_frame_index : Nat) :
    Document → List Nat → Except StateError Document
  | d, [] => Except.ok d
  | d, path :: rest =>
    match d.sheet.get_animation animation_name with
    | none => Except.error StateError.AnimationNotInDocument
    | some a =>
      match a.create_frame path next_frame_index with
      | Except.error e => Except.error e
      | Except.ok a2 =>
        insert_keyframes_loop animation_name next_frame_index
          { d with sheet := d.sheet.set_animation animation_name a2 } rest

/-- `Document::insert_keyframes_before`. -/
def insert_keyframes_before (d : Document) (paths : List Nat) (next_frame_index : Nat) :
    Except StateError Document :=
  match d.view.workbench_item with
  | some (WorkbenchItem.Animation animation_name) =>
    insert_keyframes_loop animation_name next_frame_index d paths.reverse
  | _ => Except.error StateError.NotEditingAnyAnimation

/-- Ascending insertion sort standing in for `Vec::sort` on keyframe indexes. -/
def sort_nats_insert (x : Nat) : List Nat → List Nat
  | [] => [x]
  | y :: ys => if x ≤ y then x :: y :: ys else y :: sort_nats_insert x ys

def sort_nats : List Nat → List Nat
  | [] => []
  | x :: xs => sort_nats_insert x (sort_nats xs)

/-- The `take_frame` collection loop of `reorder_keyframes` (called on the
reversed sorted index list, accumulating the removed keyframes in order). -/
def take_frames_loop : Animation → List Nat → Except StateError (List Keyframe × Animation)
  | a, [] => Except.ok ([], a)
  | a, i :: is =>
    match a.take_frame i with
    | Except.error e => Except.error e
    | Except.ok r =>
      match take_frames_loop r.2 is with
      | Except.error e => Except.error e
      | Except.ok r2 => Except.ok (r.1 :: r2.1, r2.2)

/-- The `insert_frame` loop of `reorder_keyframes`. -/
def insert_frames_loop (insert_index : Nat) : Animation → List Keyframe → Except StateError Animation
  | a, [] => Except.ok a
  | a, k :: ks =>
    match a.insert_frame k insert_index with
    | Except.error e => Except.error e
    | Except.ok a2 => insert_frames_loop insert_index a2 ks

/-- `Document::reorder_keyframes`. -/
def reorder_keyframes (d : Document) (new_index : Nat) : Except StateError Document :=
  match d.view.selection with
  | some (Selection.Keyframe selection) =>
    let frame_indexes := sort_nats selection.items
    match d.get_workbench_animation with
    | Except.error e => Except.error e
    | Except.ok animation =>
      let animation_name := animation.name
      match take_frames_loop animation frame_indexes.reverse with
      | Except.error e => Except.error e
      | Except.ok taken =>
        let num_before := (frame_indexes.filter (fun i => i < new_index)).length
        let insert_index := new_index - num_before
        match insert_frames_loop insert_index taken.2 taken.1 with
        | Except.error e => Except.error e
        | Except.ok a3 =>
          let frame_times := a3.get_frame_times
          let new_selected_indexes := List.range' insert_index frame_indexes.length
          let d := { d with
            sheet := d.sheet.set_animation animation_name a3
            view := { d.view with
              selection := some (Selection.Keyframe (MultiSelection.new new_selected_indexes)) } }
          match frame_times.get? insert_index with
          | none => Except.error StateError.InvalidKeyframeIndex
          | some timeline_pos =>
            Except.ok { d with view := { d.view with timeline_clock := timeline_pos } }
  | _ => Except.error StateError.NoKeyframeSelected

/-- The snapshot loop of `begin_keyframe_duration_drag`. -/
def build_initial_durations (s : Sheet) (animation_name : String) :
    List Nat → Except StateError (List (Nat × Nat))
  | [] => Except.ok []
  | i :: is =>
    match s.get_animation animation_name with
    | none => Except.error StateError.AnimationNotInDocument
    | some a =>
      match a.get_frame i with
      | none => Except.error StateError.InvalidKeyframeIndex
      | some keyframe =>
        match build_initial_durations s animation_name is with
        | Except.error e => Except.error e
        | Except.ok rest => Except.ok ((i, keyframe.duration) :: rest)

/-- `Document::begin_keyframe_duration_drag`. -/
def begin_keyframe_duration_drag (d : Document) (frame_being_dragged : Nat)
    (reference_clock : Nat) : Except StateError Document :=
  match d.view.workbench_item with
  | some (WorkbenchItem.Animation animation_name) =>
    match d.view.selection with
    | some (Selection.Keyframe frame_indexes) =>
      match build_initial_durations d.sheet animation_name frame_indexes.items with
      | Except.error e => Except.error e
      | Except.ok initial_duration =>
        Except.ok { d with transient := some (Transient.KeyframeDuration
          ⟨initial_duration, frame_being_dragged, reference_clock⟩) }
    | _ => Except.error StateError.NoKeyframeSelected
  | _ => Except.error StateError.NotEditingAnyAnimation

/-- The per-keyframe update loop of `update_keyframe_duration_drag`: every
selected keyframe gets the initial duration plus the shared delta, clamped
below by the minimum duration. -/
def apply_duration_loop (kd : KeyframeDuration) (duration_delta_per_frame : Int)
    (minimum_duration : Nat) : Animation → List Nat → Except StateError Animation
  | a, [] => Except.ok a
  | a, i :: is =>
    match a.get_frame i with
    | none => Except.error StateError.InvalidKeyframeIndex
    | some keyframe =>
      match kd.initial_duration.lookup i with
      | none => Except.error StateError.MissingKeyframeDurationData
      | some old_duration =>
        let new_duration := (max ((old_duration : Int) + duration_delta_per_frame)
          (minimum_duration : Int)).toNat
        apply_duration_loop kd duration_delta_per_frame minimum_duration
          (a.set_frame i { keyframe with duration := new_duration }) is

/-- `Document::update_keyframe_duration_drag`. -/
def update_keyframe_duration_drag (d : Document) (clock_at_cursor : Nat)
    (minimum_duration : Nat) : Except StateError Document :=
  match d.get_workbench_animation with
  | Except.error e => Except.error e
  | Except.ok wa =>
    let animation_name := wa.name
    match d.view.selection with
    | some (Selection.Keyframe frame_indexes) =>
      match d.transient with
      | some (Transient.KeyframeDuration keyframe_duration) =>
        match d.sheet.get_animation animation_name with
        | none => Except.error StateError.AnimationNotInDocument
        | some animation =>
          let duration_delta_up_to_dragged_frame : Int :=
            (clock_at_cursor : Int) - (keyframe_duration.reference_clock : Int)
          let divisor : Nat :=
            max ((frame_indexes.items.filter
              (fun i => i ≤ keyframe_duration.frame_being_dragged)).length) 1
          let duration_delta_per_frame :=
            Int.tdiv duration_delta_up_to_dragged_frame (divisor : Int)
          match apply_duration_loop keyframe_duration duration_delta_per_frame
              minimum_duration animation frame_indexes.items with
          | Except.error e => Except.error e
          | Except.ok a2 =>
            match a2.get_frame_times.get? frame_indexes.last_touched_in_range with
            | none => Except.error StateError.InvalidKeyframeIndex
            | some timeline_pos =>
              Except.ok { d with
                sheet := d.sheet.set_animation animation_name a2
                view := { d.view with timeline_clock := timeline_pos } }
      | _ => Except.error StateError.NotAdjustingKeyframeDuration
    | _ => Except.error StateError.NoKeyframeSelected

/-- `Document::begin_keyframe_drag`. -/
def begin_keyframe_drag (d : Document) : Document :=
  { d with transient := some Transient.TimelineFrameDrag }

/-- The snapshot loop of `begin_keyframe_offset_drag`. -/
def build_initial_offsets (a : Animation) : List Nat → Except StateError (List (Nat × Vec2))
  | [] => Except.ok []
  | i :: is =>
    match a.get_frame i with
    | none => Except.error StateError.InvalidKeyframeIndex
    | some keyframe =>
      match build_initial_offsets a is with
      | Except.error e => Except.error e
      | Except.ok rest => Except.ok ((i, keyframe.offset) :: rest)

/-- `Document::begin_keyframe_offset_drag`. -/
def begin_keyframe_offset_drag (d : Document) : Except StateError Document :=
  match d.get_workbench_animation with
  | Except.error e => Except.error e
  | Except.ok wa =>
    let animation_name := wa.name
    match d.view.selection with
    | some (Selection.Keyframe frame_indexes) =>
      match d.sheet.get_animation animation_name with
      | none => Except.error StateError.AnimationNotInDocument
      | some animation =>
        match build_initial_offsets animation frame_indexes.items with
        | Except.error e => Except.error e
        | Except.ok initial_offset =>
          Except.ok { d with transient := some (Transient.KeyframePosition ⟨initial_offset⟩) }
    | _ => Except.error StateError.NoKeyframeSelected

/-- The per-keyframe loop of `update_keyframe_offset_drag`: each selected
keyframe is repositioned from its gesture-start snapshot. -/
def apply_offset_loop (kp : KeyframePosition) (animation_name : String) (mouse_delta : Vec2f)
    (zoom : Rat) : Document → List Nat → Except StateError Document
  | d, [] => Except.ok d
  | d, i :: is =>
    match kp.initial_offset.lookup i with
    | none => Except.error StateError.MissingKeyframePositionData
    | some old_offset =>
      let new_offset := (old_offset.toF.add (mouse_delta.divScalar zoom)).floorV
      match d.sheet.get_animation animation_name with
      | none => Except.error StateError.AnimationNotInDocument
      | some a =>
        match a.get_frame i with
        | none => Except.error StateError.InvalidKeyframeIndex
        | some keyframe =>
          apply_offset_loop kp animation_name mouse_delta zoom
            { d with sheet :=
                (d.sheet.set_animation animation_name
                  (a.set_frame i ({ keyframe with offset := new_offset }))) } is

/-- The axis lock applied when a drag is restricted to its dominant axis. -/
def axis_lock (mouse_delta : Vec2f) : Vec2f :=
  if |mouse_delta.x| > |mouse_delta.y| then ⟨mouse_delta.x, 0⟩ else ⟨0, mouse_delta.y⟩

/-- `Document::update_keyframe_offset_drag`. -/
def update_keyframe_offset_drag (d : Document) (mouse_delta : Vec2f) (both_axis : Bool) :
    Except StateError Document :=
  let zoom := d.view.get_workbench_zoom_factor
  match d.get_workbench_animation with
  | Except.error e => Except.error e
  | Except.ok wa =>
    let animation_name := wa.name
    match d.view.selection with
    | some (Selection.Keyframe frame_indexes) =>
      match d.transient with
      | some (Transient.KeyframePosition keyframe_position) =>
        let mouse_delta := if !both_axis then axis_lock mouse_delta else mouse_delta
        apply_offset_loop keyframe_position animation_name mouse_delta zoom d
          frame_indexes.items
      | _ => Except.error StateError.NotAdjustingKeyframePosition
    | _ => Except.error StateError.NoKeyframeSelected

/-- `Document::create_hitbox`. -/
def create_hitbox (d : Document) (mouse_position : Vec2f) : Except StateError Document :=
  match d.get_workbench_frame with
  | Except.error e => Except.error e
  | Except.ok wf =>
    let frame_path := wf.source
    match d.sheet.get_frame frame_path with
    | none => Except.error StateError.FrameNotInDocument
    | some frame =>
      let r := frame.add_hitbox
      let hitbox_name := r.1.name
      let frame2 := r.2.set_hitbox hitbox_name { r.1 with position := mouse_position.floorV }
      let d := { d with sheet := d.sheet.set_frame frame_path frame2 }
      d.select_hitboxes (MultiSelection.new [hitbox_name])

/-- The snapshot loop of `begin_hitbox_scale`. -/
def build_initial_states (s : Sheet) (frame_path : Nat) :
    List String → Except StateError (List (String × HitboxInitialState))
  | [] => Except.ok []
  | name :: rest =>
    match s.get_frame frame_path with
    | none => Except.error StateError.FrameNotInDocument
    | some frame =>
      match frame.get_hitbox name with
      | none => Except.error StateError.InvalidHitboxName
      | some hitbox =>
        match build_initial_states s frame_path rest with
        | Except.error e => Except.error e
        | Except.ok r => Except.ok ((name, ⟨hitbox.position, hitbox.size⟩) :: r)

/-- `Document::begin_hitbox_scale`. -/
def begin_hitbox_scale (d : Document) (axis : ResizeAxis) : Except StateError Document :=
  match d.get_workbench_frame with
  | Except.error e => Except.error e
  | Except.ok wf =>
    let frame_path := wf.source
    match d.view.selection with
    | some (Selection.Hitbox names) =>
      match build_initial_states d.sheet frame_path names.items with
      | Except.error e => Except.error e
      | Except.ok initial_state =>
        Except.ok { d with transient := some (Transient.HitboxSize ⟨axis, initial_state⟩) }
    | _ => Except.error StateError.NoHitboxSelected

end Document

/-- Integer rectangle standing for `euclid::Rect<i32>`. -/
structure RectI where
  origin : Vec2
  size : Vec2
deriving DecidableEq

namespace RectI

/-- `Rect::from_points` on two points: the bounding rectangle. -/
def from_points (p q : Vec2) : RectI :=
  ⟨⟨min p.x q.x, min p.y q.y⟩, ⟨max p.x q.x - min p.x q.x, max p.y q.y - min p.y q.y⟩⟩

def bottom_right (r : RectI) : Vec2 := ⟨r.origin.x + r.size.x, r.origin.y + r.size.y⟩

def bottom_left (r : RectI) : Vec2 := ⟨r.origin.x, r.origin.y + r.size.y⟩

def top_right (r : RectI) : Vec2 := ⟨r.origin.x + r.size.x, r.origin.y⟩

def min_x (r : RectI) : Int := r.origin.x

def max_x (r : RectI) : Int := r.origin.x + r.size.x

def min_y (r : RectI) : Int := r.origin.y

def max_y (r : RectI) : Int := r.origin.y + r.size.y

end RectI

namespace Document

/-- The per-hitbox loop of `update_hitbox_scale`: the mouse delta is threaded
through the loop because an aspect-preserving diagonal resize rewrites it. -/
def apply_scale_loop (hs : HitboxSize) (zoom : Rat) (frame_path : Nat) (keep_aspect : Bool) :
    Vec2f → Document → List String → Except StateError Document
  | _, d, [] => Except.ok d
  | mouse_delta, d, hitbox_name :: rest =>
    match hs.initial_state.lookup hitbox_name with
    | none => Except.error StateError.MissingHitboxSizeData
    | some initial_state =>
      let initial_hitbox : RectI :=
        ⟨initial_state.position, ⟨(initial_state.size.1 : Int), (initial_state.size.2 : Int)⟩⟩
      let axis := hs.axis
      let mouse_delta :=
        if keep_aspect && axis.is_diagonal then
          let aspect : Rat := ((max initial_hitbox.size.x 1 : Int) : Rat) /
            ((max initial_hitbox.size.y 1 : Int) : Rat)
          let odd_axis_factor : Rat :=
            if axis = ResizeAxis.NE ∨ axis = ResizeAxis.SW then -1 else 1
          if |mouse_delta.x| > |mouse_delta.y| then
            ⟨mouse_delta.x, odd_axis_factor * ((round (mouse_delta.x / aspect) : Int) : Rat)⟩
          else
            ⟨odd_axis_factor * ((round (mouse_delta.y * aspect) : Int) : Rat), mouse_delta.y⟩
        else mouse_delta
      let md := (mouse_delta.divScalar zoom).roundV
      let new_hitbox :=
        match axis with
        | ResizeAxis.NW => RectI.from_points initial_hitbox.bottom_right (initial_hitbox.origin.add md)
        | ResizeAxis.NE => RectI.from_points initial_hitbox.bottom_left (initial_hitbox.top_right.add md)
        | ResizeAxis.SW => RectI.from_points initial_hitbox.top_right (initial_hitbox.bottom_left.add md)
        | ResizeAxis.SE => RectI.from_points initial_hitbox.origin (initial_hitbox.bottom_right.add md)
        | ResizeAxis.N => RectI.from_points initial_hitbox.bottom_left ⟨initial_hitbox.max_x, initial_hitbox.min_y + md.y⟩
        | ResizeAxis.W => RectI.from_points initial_hitbox.top_right ⟨initial_hitbox.min_x + md.x, initial_hitbox.max_y⟩
        | ResizeAxis.S => RectI.from_points initial_hitbox.origin ⟨initial_hitbox.max_x, initial_hitbox.max_y + md.y⟩
        | ResizeAxis.E => RectI.from_points initial_hitbox.origin ⟨initial_hitbox.max_x + md.x, initial_hitbox.max_y⟩
      match d.sheet.get_frame frame_path with
      | none => Except.error StateError.FrameNotInDocument
      | some frame =>
        match frame.get_hitbox hitbox_name with
        | none => Except.error StateError.InvalidHitboxName
        | some hitbox =>
          let hitbox2 := { hitbox with
            position := new_hitbox.origin
            size := (new_hitbox.size.x.toNat, new_hitbox.size.y.toNat) }
          apply_scale_loop hs zoom frame_path keep_aspect mouse_delta
            { d with sheet := d.sheet.set_frame frame_path (frame.set_hitbox hitbox_name hitbox2) }
            rest

/-- `Document::update_hitbox_scale` (the aspect-ratio flag is the second
argument). -/
def update_hitbox_scale (d : Document) (mouse_delta : Vec2f) (keep_aspect : Bool) :
    Except StateError Document :=
  match d.get_workbench_frame with
  | Except.error e => Except.error e
  | Except.ok wf =>
    let frame_path := wf.source
    match d.view.selection with
    | some (Selection.Hitbox hitbox_names) =>
      match d.transient with
      | some (Transient.HitboxSize hitbox_size) =>
        let zoom := d.view.get_workbench_zoom_factor
        apply_scale_loop hitbox_size zoom frame_path keep_aspect mouse_delta d
          hitbox_names.items
      | _ => Except.error StateError.NotAdjustingHitboxSize
    | _ => Except.error StateError.NoHitboxSelected

/-- The snapshot loop of `begin_hitbox_drag`. -/
def build_hitbox_offsets (s : Sheet) (frame_path : Nat) :
    List String → Except StateError (List (String × Vec2))
  | [] => Except.ok []
  | name :: rest =>
    match s.get_frame frame_path with
    | none => Except.error StateError.FrameNotInDocument
    | some frame =>
      match frame.get_hitbox name with
      | none => Except.error StateError.InvalidHitboxName
      | some hitbox =>
        match build_hitbox_offsets s frame_path rest with
        | Except.error e => Except.error e
        | Except.ok r => Except.ok ((name, hitbox.position) :: r)

/-- `Document::begin_hitbox_drag`. -/
def begin_hitbox_drag (d : Document) : Except StateError Document :=
  match d.get_workbench_frame with
  | Except.error e => Except.error e
  | Except.ok wf =>
    let frame_path := wf.source
    match d.view.selection with
    | some (Selection.Hitbox hitbox_names) =>
      match build_hitbox_offsets d.sheet frame_path hitbox_names.items with
      | Except.error e => Except.error e
      | Except.ok initial_offset =>
        Except.ok { d with transient := some (Transient.HitboxPosition ⟨initial_offset⟩) }
    | _ => Except.error StateError.NoHitboxSelected

/-- The per-hitbox loop of `update_hitbox_drag` (the axis lock is applied
inside the loop in the source, so the delta is threaded through). -/
def apply_hitbox_drag_loop (hp : HitboxPosition) (zoom : Rat) (frame_path : Nat)
    (both_axis : Bool) : Vec2f → Document → List String → Except StateError Document
  | _, d, [] => Except.ok d
  | mouse_delta, d, hitbox_name :: rest =>
    match hp.initial_offset.lookup hitbox_name with
    | none => Except.error StateError.MissingHitboxPositionData
    | some old_offset =>
      let mouse_delta := if !both_axis then axis_lock mouse_delta else mouse_delta
      let new_offset := (old_offset.toF.add (mouse_delta.divScalar zoom)).floorV
      match d.sheet.get_frame frame_path with
      | none => Except.error StateError.FrameNotInDocument
      | some frame =>
        match frame.get_hitbox hitbox_name with
        | none => Except.error StateError.InvalidHitboxName
        | some hitbox =>
          apply_hitbox_drag_loop hp zoom frame_path both_axis mouse_delta
            { d with sheet :=
                (d.sheet.set_frame frame_path
                  (frame.set_hitbox hitbox_name ({ hitbox with position := new_offset }))) }
            rest

/-- `Document::update_hitbox_drag`. -/
def update_hitbox_drag (d : Document) (mouse_delta : Vec2f) (both_axis : Bool) :
    Except StateError Document :=
  let zoom := d.view.get_workbench_zoom_factor
  match d.get_workbench_frame with
  | Except.error e => Except.error e
  | Except.ok wf =>
    let frame_path := wf.source
    match d.view.selection with
    | some (Selection.Hitbox hitbox_names) =>
      match d.transient with
      | some (Transient.HitboxPosition hitbox_position) =>
        apply_hitbox_drag_loop hitbox_position zoom frame_path both_axis mouse_delta d
          hitbox_names.items
      | _ => Except.error StateError.NotAdjustingHitboxPosition
    | _ => Except.error StateError.NoHitboxSelected

/-- `Document::toggle_playback`. -/
def toggle_playback (d : Document) : Except StateError Document :=
  match d.get_workbench_animation with
  | Except.error e => Except.error e
  | Except.ok animation =>
    let new_timeline_clock :=
      if d.persistent.timeline_is_playing = false then
        match animation.get_duration with
        | some dur =>
          if dur > 0 ∧ animation.is_looping = false ∧ d.view.timeline_clock ≥ dur then 0
          else d.view.timeline_clock
        | none => d.view.timeline_clock
      else d.view.timeline_clock
    Except.ok { d with
      persistent := { d.persistent with timeline_is_playing := !d.persistent.timeline_is_playing }
      view := { d.view with timeline_clock := new_timeline_clock } }

/-- `Document::update_timeline_scrub`. -/
def update_timeline_scrub (d : Document) (new_time : Nat) : Except StateError Document :=
  match d.get_workbench_animation with
  | Except.error e => Except.error e
  | Except.ok animation =>
    match animation.get_frame_at new_time with
    | none => Except.error StateError.NoKeyframeForThisTime
    | some r =>
      match d.select_keyframes (MultiSelection.new [r.1]) with
      | Except.error e => Except.error e
      | Except.ok d => Except.ok { d with view := { d.view with timeline_clock := new_time } }

/-- `Document::snap_to_previous_frame`. -/
def snap_to_previous_frame (d : Document) : Except StateError Document :=
  match d.get_workbench_animation with
  | Except.error e => Except.error e
  | Except.ok animation =>
    if animation.get_num_frames = 0 then Except.ok d
    else
      let now := d.view.timeline_clock
      let frame_times := animation.get_frame_times
      let clock :=
        match frame_times.reverse.find? (fun t1 => t1 < now) with
        | some t1 => t1
        | none =>
          match frame_times.head? with
          | some t => t
          | none => 0
      d.update_timeline_scrub clock

/-- `Document::snap_to_next_frame`. -/
def snap_to_next_frame (d : Document) : Except StateError Document :=
  match d.get_workbench_animation with
  | Except.error e => Except.error e
  | Except.ok animation =>
    if animation.get_num_frames = 0 then Except.ok d
    else
      let now := d.view.timeline_clock
      let frame_times := animation.get_frame_times
      let clock :=
        match frame_times.find? (fun t1 => t1 > now) with
        | some t1 => t1
        | none =>
          match frame_times.getLast? with
          | some t => t
          | none => 0
      d.update_timeline_scrub clock

/-- `Document::toggle_looping`. -/
def toggle_looping (d : Document) : Except StateError Document :=
  match d.get_workbench_animation with
  | Except.error e => Except.error e
  | Except.ok animation =>
    Except.ok { d with sheet :=
      (d.sheet.set_animation animation.name
        (animation.set_is_looping (!animation.is_looping))) }

/-- The per-hitbox loop of `nudge_selection` (the workbench frame is
re-fetched on every iteration, as in the source). -/
def nudge_hitboxes_loop (offset : Vec2) : Document → List String → Except StateError Document
  | d, [] => Except.ok d
  | d, name :: rest =>
    match d.get_workbench_frame with
    | Except.error e => Except.error e
    | Except.ok frame =>
      match frame.get_hitbox name with
      | none => Except.error StateError.InvalidHitboxName
      | some hitbox =>
        nudge_hitboxes_loop offset
          { d with sheet :=
              (d.sheet.set_frame frame.source
                (frame.set_hitbox name ({ hitbox with position := hitbox.position.add offset }))) }
          rest

/-- The per-keyframe loop of `nudge_selection`. -/
def nudge_keyframes_loop (offset : Vec2) : Document → List Nat → Except StateError Document
  | d, [] => Except.ok d
  | d, index :: rest =>
    match d.get_workbench_animation with
    | Except.error e => Except.error e
    | Except.ok animation =>
      match animation.get_frame index with
      | none => Except.error StateError.InvalidKeyframeIndex
      | some keyframe =>
        nudge_keyframes_loop offset
          { d with sheet :=
              (d.sheet.set_animation animation.name
                (animation.set_frame index
                  ({ keyframe with offset := keyframe.offset.add offset }))) }
          rest

/-- `Document::nudge_selection`. -/
def nudge_selection (d : Document) (direction : Vec2) (large : Bool) :
    Except StateError Document :=
  let amplitude : Int := if large then 10 else 1
  let offset := direction.scale amplitude
  match d.view.selection with
  | some (Selection.Animation _) => Except.ok d
  | some (Selection.Frame _) => Except.ok d
  | some (Selection.Hitbox names) => nudge_hitboxes_loop offset d names.items
  | some (Selection.Keyframe indexes) => nudge_keyframes_loop offset d indexes.items
  | none => Except.ok d

/-- `Document::delete_selection`. -/
def delete_selection (d : Document) : Except StateError Document :=
  match d.view.selection with
  | some (Selection.Animation names) =>
    let sheet := names.items.foldl (fun s n => Sheet.delete_animation s n) d.sheet
    Except.ok { d with sheet := sheet, view := { d.view with selection := none } }
  | some (Selection.Frame paths) =>
    let sheet := paths.items.foldl (fun s p => Sheet.delete_frame s p) d.sheet
    Except.ok { d with sheet := sheet, view := { d.view with selection := none } }
  | some (Selection.Hitbox names) =>
    match d.get_workbench_frame with
    | Except.error e => Except.error e
    | Except.ok frame =>
      let frame_path := frame.source
      let sheet := names.items.foldl (fun s n => Sheet.delete_hitbox s frame_path n) d.sheet
      Except.ok { d with sheet := sheet, view := { d.view with selection := none } }
  | some (Selection.Keyframe indexes) =>
    match d.get_workbench_animation with
    | Except.error e => Except.error e
    | Except.ok animation =>
      let animation_name := animation.name
      let sheet := indexes.items.foldl (fun s i => Sheet.delete_keyframe s animation_name i) d.sheet
      Except.ok { d with sheet := sheet, view := { d.view with selection := none } }
  | none => Except.ok { d with view := { d.view with selection := none } }

/-- `Document::begin_rename_selection`. -/
def begin_rename_selection (d : Document) : Document :=
  match d.view.selection with
  | some (Selection.Animation names) => d.begin_rename names.last_touched_in_range
  | some (Selection.Hitbox names) => d.begin_rename names.last_touched_in_range
  | _ => d

/-- `Document::end_rename_selection`. -/
def end_rename_selection (d : Document) : Except StateError Document :=
  match d.transient with
  | some (Transient.Rename r) =>
    let new_name := r.new_name
    match d.view.selection with
    | some (Selection.Animation names) =>
      let old_name := names.last_touched_in_range
      if old_name ≠ new_name then
        if d.sheet.has_animation new_name then
          Except.error StateError.AnimationAlreadyExists
        else
          match d.sheet.rename_animation old_name new_name with
          | Except.error e => Except.error e
          | Except.ok sheet2 =>
            match Document.select_animations { d with sheet := sheet2 }
                (MultiSelection.new [new_name]) with
            | Except.error e => Except.error e
            | Except.ok d2 =>
              if d2.view.workbench_item = some (WorkbenchItem.Animation old_name) then
                Except.ok { d2 with view := { d2.view with
                  workbench_item := some (WorkbenchItem.Animation new_name) } }
              else Except.ok d2
      else Except.ok d
    | some (Selection.Hitbox names) =>
      let old_name := names.last_touched_in_range
      if old_name ≠ new_name then
        match d.get_workbench_frame with
        | Except.error e => Except.error e
        | Except.ok wf =>
          let frame_path := wf.source
          match d.sheet.get_frame frame_path with
          | none => Except.error StateError.FrameNotInDocument
          | some frame =>
            if frame.has_hitbox new_name then
              Except.error StateError.HitboxAlreadyExists
            else
              match frame.rename_hitbox old_name new_name with
              | Except.error e => Except.error e
              | Except.ok frame2 =>
                Document.select_hitboxes
                  { d with sheet := d.sheet.set_frame frame_path frame2 }
                  (MultiSelection.new [new_name])
      else Except.ok d
    | _ => Except.ok d
  | _ => Except.error StateError.NotRenaming

/-- `Document::begin_export_as`. -/
def begin_export_as (d : Document) : Document :=
  { d with persistent := { d.persistent with export_settings_edit :=
      match d.sheet.get_export_settings with
      | some e => some e
      | none => some ExportSettings.new } }

/-- `Document::cancel_export_as`. -/
def cancel_export_as (d : Document) : Document :=
  { d with persistent := { d.persistent with export_settings_edit := none } }

/-- `Document::end_set_export_texture_destination`. -/
def end_set_export_texture_destination (d : Document) (dst : Nat) : Except StateError Document :=
  match d.persistent.export_settings_edit with
  | none => Except.error StateError.NotExporting
  | some e => Except.ok { d with persistent := { d.persistent with
      export_settings_edit := some { e with texture_destination := dst } } }

/-- `Document::end_set_export_metadata_destination`. -/
def end_set_export_metadata_destination (d : Document) (dst : Nat) : Except StateError Document :=
  match d.persistent.export_settings_edit with
  | none => Except.error StateError.NotExporting
  | some e => Except.ok { d with persistent := { d.persistent with
      export_settings_edit := some { e with metadata_destination := dst } } }

/-- `Document::end_set_export_metadata_paths_root`. -/
def end_set_export_metadata_paths_root (d : Document) (dst : Nat) : Except StateError Document :=
  match d.persistent.export_settings_edit with
  | none => Except.error StateError.NotExporting
  | some e => Except.ok { d with persistent := { d.persistent with
      export_settings_edit := some { e with metadata_paths_root := dst } } }

/-- `Document::end_set_export_format`. -/
def end_set_export_format (d : Document) (f : ExportFormat) : Except StateError Document :=
  match d.persistent.export_settings_edit with
  | none => Except.error StateError.NotExporting
  | some e => Except.ok { d with persistent := { d.persistent with
      export_settings_edit := some { e with format := f } } }

/-- `Document::end_export_as`. -/
def end_export_as (d : Document) : Except StateError Document :=
  match d.persistent.export_settings_edit with
  | none => Except.error StateError.NotExporting
  | some e => Except.ok { d with
      sheet := d.sheet.set_export_settings e
      persistent := { d.persistent with export_settings_edit := none } }

/-- `Document::begin_close`. -/
def begin_close (d : Document) : Document :=
  if d.persistent.close_state = none then
    { d with persistent := { d.persistent with close_state :=
        (some (if d.is_saved then CloseState.Allowed else CloseState.Requested)) } }
  else d

/-- The dispatch `match` of `Document::process_command`, applied to the clone
`new_document` of the document. -/
def apply_command (nd : Document) (c : DocumentCommand) : Except StateError Document :=
  match c with
  | DocumentCommand.MarkAsSaved _ v =>
    Except.ok { nd with persistent := { nd.persistent with disk_version := v } }
  | DocumentCommand.EndImport _ f => Except.ok { nd with sheet := nd.sheet.add_frame f }
  | DocumentCommand.BeginExportAs => Except.ok nd.begin_export_as
  | DocumentCommand.CancelExportAs => Except.ok nd.cancel_export_as
  | DocumentCommand.EndSetExportTextureDestination _ dst =>
    nd.end_set_export_texture_destination dst
  | DocumentCommand.EndSetExportMetadataDestination _ dst =>
    nd.end_set_export_metadata_destination dst
  | DocumentCommand.EndSetExportMetadataPathsRoot _ dst =>
    nd.end_set_export_metadata_paths_root dst
  | DocumentCommand.EndSetExportFormat _ f => nd.end_set_export_format f
  | DocumentCommand.EndExportAs => nd.end_export_as
  | DocumentCommand.SwitchToContentTab t =>
    Except.ok { nd with view := { nd.view with content_tab := t } }
  | DocumentCommand.ClearSelection => Except.ok nd.clear_selection
  | DocumentCommand.SelectFrames s => nd.select_frames s
  | DocumentCommand.SelectAnimations s => nd.select_animations s
  | DocumentCommand.SelectHitboxes s => nd.select_hitboxes s
  | DocumentCommand.SelectKeyframes s => nd.select_keyframes s
  | DocumentCommand.EditFrame p => nd.edit_frame p
  | DocumentCommand.EditAnimation a => nd.edit_animation a
  | DocumentCommand.CreateAnimation => nd.create_animation
  | DocumentCommand.BeginFramesDrag =>
    Except.ok { nd with transient := some Transient.ContentFramesDrag }
  | DocumentCommand.InsertKeyframesBefore frames n => nd.insert_keyframes_before frames n
  | DocumentCommand.ReorderKeyframes i => nd.reorder_keyframes i
  | DocumentCommand.BeginKeyframeDurationDrag c i => nd.begin_keyframe_duration_drag i c
  | DocumentCommand.UpdateKeyframeDurationDrag dd m => nd.update_keyframe_duration_drag dd m
  | DocumentCommand.BeginKeyframeDrag => Except.ok nd.begin_keyframe_drag
  | DocumentCommand.BeginKeyframeOffsetDrag => nd.begin_keyframe_offset_drag
  | DocumentCommand.UpdateKeyframeOffsetDrag o b => nd.update_keyframe_offset_drag o b
  | DocumentCommand.WorkbenchZoomIn =>
    Except.ok { nd with view := nd.view.workbench_zoom_in }
  | DocumentCommand.WorkbenchZoomOut =>
    Except.ok { nd with view := nd.view.workbench_zoom_out }
  | DocumentCommand.WorkbenchResetZoom =>
    Except.ok { nd with view := nd.view.workbench_reset_zoom }
  | DocumentCommand.WorkbenchCenter =>
    Except.ok { nd with view := nd.view.workbench_center }
  | DocumentCommand.Pan delta => Except.ok { nd with view := nd.view.pan delta }
  | DocumentCommand.CreateHitbox p => nd.create_hitbox p
  | DocumentCommand.BeginHitboxScale axis => nd.begin_hitbox_scale axis
  | DocumentCommand.UpdateHitboxScale delta ar => nd.update_hitbox_scale delta ar
  | DocumentCommand.BeginHitboxDrag => nd.begin_hitbox_drag
  | DocumentCommand.UpdateHitboxDrag delta b => nd.update_hitbox_drag delta b
  | DocumentCommand.TogglePlayback => nd.toggle_playback
  | DocumentCommand.SnapToPreviousFrame => nd.snap_to_previous_frame
  | DocumentCommand.SnapToNextFrame => nd.snap_to_next_frame
  | DocumentCommand.ToggleLooping => nd.toggle_looping
  | DocumentCommand.TimelineZoomIn =>
    Except.ok { nd with view := nd.view.timeline_zoom_in }
  | DocumentCommand.TimelineZoomOut =>
    Except.ok { nd with view := nd.view.timeline_zoom_out }
  | DocumentCommand.TimelineResetZoom =>
    Except.ok { nd with view := nd.view.timeline_reset_zoom }
  | DocumentCommand.BeginScrub =>
    Except.ok { nd with transient := some Transient.TimelineScrub }
  | DocumentCommand.UpdateScrub t => nd.update_timeline_scrub t
  | DocumentCommand.NudgeSelection dir l => nd.nudge_selection dir l
  | DocumentCommand.DeleteSelection => nd.delete_selection
  | DocumentCommand.BeginRenameSelection => Except.ok nd.begin_rename_selection
  | DocumentCommand.UpdateRenameSelection n =>
    Except.ok { nd with transient := some (Transient.Rename ⟨n⟩) }
  | DocumentCommand.EndRenameSelection => nd.end_rename_selection
  | DocumentCommand.Close => Except.ok nd.begin_close
  | DocumentCommand.CloseAfterSaving =>
    Except.ok { nd with persistent := { nd.persistent with close_state := some CloseState.Saving } }
  | DocumentCommand.CloseWithoutSaving =>
    Except.ok { nd with persistent := { nd.persistent with close_state := some CloseState.Allowed } }
  | DocumentCommand.CancelClose =>
    Except.ok { nd with persistent := { nd.persistent with close_state := none } }
  | DocumentCommand.EndFramesDrag => Except.ok nd
  | DocumentCommand.EndKeyframeDurationDrag => Except.ok nd
  | DocumentCommand.EndKeyframeDrag => Except.ok nd
  | DocumentCommand.EndKeyframeOffsetDrag => Except.ok nd
  | DocumentCommand.EndHitboxScale => Except.ok nd
  | DocumentCommand.EndHitboxDrag => Except.ok nd
  | DocumentCommand.EndScrub => Except.ok nd

/-- `Document::process_command`: apply the command to a clone, clear the
clone transient unless the command is transient-preserving, then commit via
`record_command`.  On error the original document is returned untouched. -/
def process_command (d : Document) (c : DocumentCommand) : Document × Option StateError :=
  match apply_command d c with
  | Except.error e => (d, some e)
  | Except.ok nd =>
    let nd := if Transient.is_transient_command c then nd else { nd with transient := none }
    (d.record_command c nd, none)

end Document

/-- Run a command list, stopping at the first error. -/
def run_all : Document → List DocumentCommand → Document × Option StateError
  | d, [] => (d, none)
  | d, c :: cs =>
    match Document.process_command d c with
    | (d2, none) => run_all d2 cs
    | (d2, some e) => (d2, some e)

/-- Iterated `undo` (keeping the document, discarding the per-call result). -/
def undo_n : Document → Nat → Document
  | d, 0 => d
  | d, n + 1 => undo_n d.undo.1 n

/-- Iterated `redo`. -/
def redo_n : Document → Nat → Document
  | d, 0 => d
  | d, n + 1 => redo_n d.redo.1 n

/-- A run in which every command succeeds and changes the sheet (the
"content-mutating, each succeeds through process_command" hypothesis). -/
def mutating_ok : Document → List DocumentCommand → Bool
  | _, [] => true
  | d, c :: cs =>
    match Document.process_command d c with
    | (d2, none) => !(d2.sheet == d.sheet) && mutating_ok d2 cs
    | (_, some _) => false

/-- The documented history invariant: `history` is never empty,
`history_index < history.len()`, and the length is capped at 100. -/
def Wf (d : Document) : Prop :=
  0 < d.history.length ∧ d.history_index < d.history.length ∧ d.history.length ≤ 100

instance (d : Document) : Decidable (Wf d) := by unfold Wf; infer_instance

/-- The last `n` elements of a list. -/
def last_n (n : Nat) (l : List α) : List α := l.drop (l.length - n)

namespace Document

/-- The loop invariant of a gesture-free content-mutating run: `Y` is the
entire uncapped entry sequence; the live history is its 100-entry suffix,
the cursor sits on the top entry, and the live sheet matches it. -/
def chain_inv (Y : List HistoryEntry) (d : Document) : Prop :=
  d.transient = none ∧
  d.history = last_n 100 Y ∧
  d.history_index = d.history.length - 1 ∧
  0 < d.history.length ∧
  d.sheet = (d.history.getD d.history_index default).sheet

/-- The document produced by one backward move of `undo`. -/
def undo_moved (d : Document) : Document :=
  { d with
    history_index := d.history_index - 1
    sheet := (d.history.getD (d.history_index - 1) default).sheet
    view := (d.history.getD (d.history_index - 1) default).view
    persistent := { d.persistent with timeline_is_playing := false } }

/-- The document produced by one forward move of `redo`. -/
def redo_moved (d : Document) : Document :=
  { d with
    history_index := d.history_index + 1
    sheet := (d.history.getD (d.history_index + 1) default).sheet
    view := (d.history.getD (d.history_index + 1) default).view
    persistent := { d.persistent with timeline_is_playing := false } }

/-- 150 imports of distinct frame paths (the history-cap stress sequence). -/
def imports150 : List DocumentCommand :=
  (List.range 150).map (fun j => DocumentCommand.EndImport 0 j)

/-- 100 imports of distinct frame paths. -/
def imports100 : List DocumentCommand :=
  (List.range 100).map (fun j => DocumentCommand.EndImport 0 j)

/-- A document with one frame, one animation and an animation selection,
used to exercise `select_frames` validation. -/
def c2doc : Document :=
  let d := Document.new 0
  { d with sheet := { d.sheet with frames := [⟨0, []⟩], animations := [⟨"a", [], false⟩] },
           view := { d.view with selection := some (Selection.Animation ⟨["a"], "a"⟩) } }

/-- A document editing a frame with a selected hitbox, history in sync,
used to exercise the hitbox drag gesture. -/
def c3doc : Document :=
  let d := Document.new 0
  let s : Sheet := { d.sheet with frames := [⟨0, [⟨"h", ⟨0, 0⟩, (10, 10)⟩]⟩] }
  let v : View := { d.view with
                    workbench_item := some (WorkbenchItem.Frame 0),
                    selection := some (Selection.Hitbox ⟨["h"], "h"⟩) }
  { d with sheet := s, view := v, history := [⟨none, s, v, 0⟩] }

/-- A hitbox drag gesture: begin, five absolute updates, end. -/
def c3cmds : List DocumentCommand :=
  [DocumentCommand.BeginHitboxDrag,
   DocumentCommand.UpdateHitboxDrag ⟨1, 0⟩ true,
   DocumentCommand.UpdateHitboxDrag ⟨2, 0⟩ true,
   DocumentCommand.UpdateHitboxDrag ⟨3, 0⟩ true,
   DocumentCommand.UpdateHitboxDrag ⟨4, 0⟩ true,
   DocumentCommand.UpdateHitboxDrag ⟨5, 0⟩ true,
   DocumentCommand.EndHitboxDrag]

/-- A document mid duration-drag: three keyframes of 100 ms, all selected,
the middle one dragged, reference clock 0. -/
def c6doc : Document :=
  let d := Document.new 0
  { d with sheet := { d.sheet with
             animations := [⟨"anim", [⟨0, 100, ⟨0, 0⟩⟩, ⟨0, 100, ⟨0, 0⟩⟩, ⟨0, 100, ⟨0, 0⟩⟩], false⟩] },
           view := { d.view with
                     workbench_item := some (WorkbenchItem.Animation "anim"),
                     selection := some (Selection.Keyframe ⟨[0, 1, 2], 1⟩) },
           transient := some (Transient.KeyframeDuration ⟨[(0, 100), (1, 100), (2, 100)], 1, 0⟩) }

/-- The document produced by the sample duration-drag update (falls back to
the input on error). -/
def c6res : Document :=
  match Document.update_keyframe_duration_drag c6doc 30 1 with
  | Except.ok d => d
  | Except.error _ => c6doc

/-- A gesture-free document at the bottom of its history with playback on. -/
def c7doc : Document :=
  let d := Document.new 0
  { d with persistent := { d.persistent with timeline_is_playing := true } }

/-- A playing document whose workbench shows a looping two-keyframe
animation (durations 100 ms and 50 ms). -/
def c8doc : Document :=
  let d := Document.new 0
  { d with sheet := { d.sheet with
             animations := [⟨"a", [⟨0, 100, ⟨0, 0⟩⟩, ⟨0, 50, ⟨0, 0⟩⟩], true⟩] },
           view := { d.view with workbench_item := some (WorkbenchItem.Animation "a") },
           persistent := { d.persistent with timeline_is_playing := true } }

/-- A playing document with no workbench subject at all. -/
def c8bad : Document :=
  let d := Document.new 0
  { d with persistent := { d.persistent with timeline_is_playing := true } }

/-- A document with animations "walk" and "run", "walk" selected, mid-rename
to the already-used name "run". -/
def c9doc : Document :=
  let d := Document.new 0
  { d with sheet := { d.sheet with
             animations := [⟨"walk", [], false⟩, ⟨"run", [], false⟩] },
           view := { d.view with selection := some (Selection.Animation ⟨["walk"], "walk"⟩) },
           transient := some (Transient.Rename ⟨"run"⟩) }

end Document

namespace Document

theorem cap_history_eq (h : List HistoryEntry) (i : Nat) :
    cap_history h i = (h.drop (h.length - 100), i - (h.length - 100)) := by
  induction h generalizing i with
  | nil => simp [cap_history]
  | cons x t ih =>
    rw [cap_history]
    by_cases hgt : (x :: t).length > 100
    · rw [if_pos hgt, ih]
      have hlen : 100 ≤ t.length := by simp only [List.length_cons] at hgt; omega
      have h1 : (x :: t).length - 100 = (t.length - 100) + 1 := by
        simp only [List.length_cons]; omega
      rw [h1, List.drop_succ_cons]
      refine Prod.ext rfl (by simp only [List.length_cons]; omega)
    · rw [if_neg hgt]
      have h0 : (x :: t).length - 100 = 0 := by
        simp only [List.length_cons] at hgt ⊢; omega
      rw [h0]
      simp

theorem push_undo_state_eq (d : Document) (e : HistoryEntry) :
    push_undo_state d e =
      { d with
        history := last_n 100 (d.history.take (d.history_index + 1) ++ [e])
        history_index :=
          (d.history.take (d.history_index + 1) ++ [e]).length - 1 -
            ((d.history.take (d.history_index + 1) ++ [e]).length - 100) } := by
  simp [push_undo_state, cap_history_eq, last_n]

theorem push_undo_state_history (d : Document) (e : HistoryEntry) :
    (push_undo_state d e).history = last_n 100 (d.history.take (d.history_index + 1) ++ [e]) := by
  rw [push_undo_state_eq]

theorem push_undo_state_index (d : Document) (e : HistoryEntry) :
    (push_undo_state d e).history_index = (push_undo_state d e).history.length - 1 := by
  rw [push_undo_state_eq]
  simp only [last_n, List.length_drop, List.length_append, List.length_cons, List.length_nil]
  omega

theorem push_undo_state_fields (d : Document) (e : HistoryEntry) :
    (push_undo_state d e).sheet = d.sheet ∧ (push_undo_state d e).view = d.view ∧
    (push_undo_state d e).transient = d.transient ∧
    (push_undo_state d e).persistent = d.persistent ∧
    (push_undo_state d e).next_version = d.next_version ∧
    (push_undo_state d e).source = d.source := by
  simp [push_undo_state]

theorem push_undo_state_wf (d : Document) (e : HistoryEntry) : Wf (push_undo_state d e) := by
  rw [push_undo_state_eq]
  unfold Wf
  simp only [last_n, List.length_drop, List.length_append, List.length_cons, List.length_nil]
  omega

theorem top_entry_irrelevant (d : Document) (s : Sheet) (v : View) (t : Option Transient)
    (p : Persistent) (nv : Int) :
    Document.top_entry
      ({ d with sheet := s, view := v, transient := t, persistent := p, next_version := nv })
      = d.top_entry := rfl

/-- With a gesture live in the incoming document, `record_command` copies the
four live fields and leaves history, cursor and version counter untouched. -/
theorem record_command_transient (d : Document) (c : DocumentCommand) (nd : Document)
    (h : nd.transient.isSome) :
    record_command d c nd =
      { d with sheet := nd.sheet, view := nd.view, transient := nd.transient,
               persistent := nd.persistent } := by
  unfold record_command can_use_undo_system
  have h1 : nd.transient.isNone = false := by
    cases hx : nd.transient
    · rw [hx] at h; simp at h
    · simp
  simp only [h1, Bool.false_eq_true, if_false]

/-- With no gesture and a content change, `record_command` bumps the version
and pushes a history entry. -/
theorem record_command_push (d : Document) (c : DocumentCommand) (nd : Document)
    (hnone : nd.transient = none) (hs : d.top_entry.sheet ≠ nd.sheet) :
    record_command d c nd =
      push_undo_state
        ({ d with sheet := nd.sheet, view := nd.view, transient := none,
                  persistent := nd.persistent, next_version := d.next_version + 1 })
        ⟨some c, nd.sheet, nd.view, d.next_version + 1⟩ := by
  unfold record_command can_use_undo_system
  simp only [hnone, Option.isNone_none, if_true, top_entry_irrelevant, ne_eq]
  have h2 : (decide ¬(d.top_entry.sheet = nd.sheet)) = true := by simp [hs]
  simp only [h2, if_true]

/-- With no gesture, no content change and no view change, `record_command`
only copies the live fields. -/
theorem record_command_nochange (d : Document) (c : DocumentCommand) (nd : Document)
    (hnone : nd.transient = none) (hs : d.top_entry.sheet = nd.sheet)
    (hv : d.top_entry.view = nd.view) :
    record_command d c nd =
      { d with sheet := nd.sheet, view := nd.view, transient := none,
               persistent := nd.persistent } := by
  unfold record_command can_use_undo_system
  simp only [hnone, Option.isNone_none, if_true, top_entry_irrelevant, ne_eq]
  have h2 : (decide ¬(d.top_entry.sheet = nd.sheet)) = false := by simp [hs]
  simp only [h2, Bool.false_eq_true, if_false, top_entry_irrelevant]
  rw [if_neg (by simp [hv])]

/-- The view-only merge branch: the entry below the top carries the same
sheet as the top, so the top entry's view is overwritten in place. -/
theorem record_command_view_merge (d : Document) (c : DocumentCommand) (nd : Document)
    (hnone : nd.transient = none) (hs : d.top_entry.sheet = nd.sheet)
    (hv : d.top_entry.view ≠ nd.view) (hi : d.history_index > 0)
    (hm : (d.history.getD (d.history_index - 1) default).sheet = d.top_entry.sheet) :
    record_command d c nd =
      { d with sheet := nd.sheet, view := nd.view, transient := none,
               persistent := nd.persistent,
               history := d.history.set d.history_index ({ d.top_entry with view := nd.view }) } := by
  unfold record_command can_use_undo_system
  simp only [hnone, Option.isNone_none, if_true, top_entry_irrelevant, ne_eq]
  have h2 : (decide ¬(d.top_entry.sheet = nd.sheet)) = false := by simp [hs]
  simp only [h2, Bool.false_eq_true, if_false, top_entry_irrelevant]
  rw [if_pos hv, if_pos ⟨hi, hm⟩]

/-- The view-only push branch: no merge partner, so a new entry carrying the
unchanged sheet and the unchanged version is pushed. -/
theorem record_command_view_push (d : Document) (c : DocumentCommand) (nd : Document)
    (hnone : nd.transient = none) (hs : d.top_entry.sheet = nd.sheet)
    (hv : d.top_entry.view ≠ nd.view)
    (hm : ¬(d.history_index > 0 ∧
        (d.history.getD (d.history_index - 1) default).sheet = d.top_entry.sheet)) :
    record_command d c nd =
      push_undo_state
        ({ d with sheet := nd.sheet, view := nd.view, transient := none,
                  persistent := nd.persistent })
        ⟨some c, nd.sheet, nd.view, d.next_version⟩ := by
  unfold record_command can_use_undo_system
  simp only [hnone, Option.isNone_none, if_true, top_entry_irrelevant, ne_eq]
  have h2 : (decide ¬(d.top_entry.sheet = nd.sheet)) = false := by simp [hs]
  simp only [h2, Bool.false_eq_true, if_false, top_entry_irrelevant]
  rw [if_pos hv, if_neg hm]

/-- `record_command` always installs the incoming live fields. -/
theorem record_command_fields (d : Document) (c : DocumentCommand) (nd : Document) :
    (record_command d c nd).sheet = nd.sheet ∧ (record_command d c nd).view = nd.view ∧
    (record_command d c nd).transient = nd.transient ∧
    (record_command d c nd).persistent = nd.persistent := by
  unfold record_command
  dsimp only
  split
  · split
    · simp [push_undo_state]
    · split
      · split
        · simp
        · simp [push_undo_state]
      · simp
  · simp

/-- A failing command leaves the document untouched. -/
theorem process_command_err (d : Document) (c : DocumentCommand) (d' : Document)
    (e : StateError) (h : process_command d c = (d', some e)) : d' = d := by
  unfold process_command at h
  cases happ : apply_command d c with
  | error e2 => rw [happ] at h; simp at h; exact h.1.symm
  | ok nd => rw [happ] at h; simp at h

/-- A successful command factors through `apply_command`, the transient
allow-list filter and `record_command`. -/
theorem process_command_ok (d : Document) (c : DocumentCommand) (d' : Document)
    (h : process_command d c = (d', none)) :
    ∃ nd, apply_command d c = Except.ok nd ∧
      d' = record_command d c
        (if Transient.is_transient_command c then nd else { nd with transient := none }) := by
  unfold process_command at h
  cases happ : apply_command d c with
  | error e2 => rw [happ] at h; simp at h
  | ok nd =>
    rw [happ] at h
    simp only [Prod.mk.injEq] at h
    exact ⟨nd, rfl, by rw [← h.1]⟩


theorem select_keyframes_sheet (d : Document) (ms : MultiSelection Nat) (d' : Document)
    (h : select_keyframes d ms = Except.ok d') : d'.sheet = d.sheet := by
  unfold select_keyframes at h
  dsimp only at h
  repeat' split at h
  all_goals try exact Except.noConfusion h
  all_goals try injection h with h2
  all_goals try subst h2
  all_goals first | rfl | simp [clear_selection]

theorem update_timeline_scrub_sheet (d : Document) (t : Nat) (d' : Document)
    (h : update_timeline_scrub d t = Except.ok d') : d'.sheet = d.sheet := by
  unfold update_timeline_scrub at h
  dsimp only at h
  repeat' split at h
  all_goals try exact Except.noConfusion h
  all_goals try injection h with h2
  all_goals try subst h2
  all_goals try rfl
  case _ dmid hmid =>
    exact select_keyframes_sheet d _ dmid hmid

theorem begin_keyframe_duration_drag_sheet (d : Document) (i r : Nat) (d' : Document)
    (h : begin_keyframe_duration_drag d i r = Except.ok d') : d'.sheet = d.sheet := by
  unfold begin_keyframe_duration_drag at h
  try dsimp only at h
  repeat' split at h
  all_goals try exact Except.noConfusion h
  all_goals try injection h with h2
  all_goals try subst h2
  all_goals first | rfl | simp [clear_selection]

theorem begin_keyframe_offset_drag_sheet (d : Document) (d' : Document)
    (h : begin_keyframe_offset_drag d = Except.ok d') : d'.sheet = d.sheet := by
  unfold begin_keyframe_offset_drag at h
  dsimp only at h
  repeat' split at h
  all_goals try exact Except.noConfusion h
  all_goals try injection h with h2
  all_goals try subst h2
  all_goals first | rfl | simp [clear_selection]

theorem begin_hitbox_scale_sheet (d : Document) (axis : ResizeAxis) (d' : Document)
    (h : begin_hitbox_scale d axis = Except.ok d') : d'.sheet = d.sheet := by
  unfold begin_hitbox_scale at h
  dsimp only at h
  repeat' split at h
  all_goals try exact Except.noConfusion h
  all_goals try injection h with h2
  all_goals try subst h2
  all_goals first | rfl | simp [clear_selection]

theorem begin_hitbox_drag_sheet (d : Document) (d' : Document)
    (h : begin_hitbox_drag d = Except.ok d') : d'.sheet = d.sheet := by
  unfold begin_hitbox_drag at h
  dsimp only at h
  repeat' split at h
  all_goals try exact Except.noConfusion h
  all_goals try injection h with h2
  all_goals try subst h2
  all_goals first | rfl | simp [clear_selection]

theorem begin_rename_selection_sheet (d : Document) :
    (begin_rename_selection d).sheet = d.sheet := by
  unfold begin_rename_selection
  repeat' split
  all_goals rfl

theorem update_keyframe_duration_drag_not_ok (d : Document) (t m : Nat) (d' : Document)
    (ht : d.transient = none) : update_keyframe_duration_drag d t m ≠ Except.ok d' := by
  intro h
  unfold update_keyframe_duration_drag at h
  dsimp only at h
  repeat' split at h
  all_goals try exact Except.noConfusion h
  all_goals simp_all

theorem update_keyframe_offset_drag_not_ok (d : Document) (o : Vec2f) (b : Bool) (d' : Document)
    (ht : d.transient = none) : update_keyframe_offset_drag d o b ≠ Except.ok d' := by
  intro h
  unfold update_keyframe_offset_drag at h
  dsimp only at h
  repeat' split at h
  all_goals try exact Except.noConfusion h
  all_goals simp_all

theorem update_hitbox_scale_not_ok (d : Document) (o : Vec2f) (b : Bool) (d' : Document)
    (ht : d.transient = none) : update_hitbox_scale d o b ≠ Except.ok d' := by
  intro h
  unfold update_hitbox_scale at h
  dsimp only at h
  repeat' split at h
  all_goals try exact Except.noConfusion h
  all_goals simp_all

theorem update_hitbox_drag_not_ok (d : Document) (o : Vec2f) (b : Bool) (d' : Document)
    (ht : d.transient = none) : update_hitbox_drag d o b ≠ Except.ok d' := by
  intro h
  unfold update_hitbox_drag at h
  dsimp only at h
  repeat' split at h
  all_goals try exact Except.noConfusion h
  all_goals simp_all

/-- A transient-preserving command applied to a gesture-free document cannot
change the sheet: the gesture updates fail and the other commands only touch
view or transient state. -/
theorem apply_transient_cmd_sheet (d nd : Document) (c : DocumentCommand)
    (ht : d.transient = none) (hc : Transient.is_transient_command c = true)
    (h : apply_command d c = Except.ok nd) : nd.sheet = d.sheet := by
  cases c <;> simp [Transient.is_transient_command] at hc <;>
    simp only [apply_command] at h
  case BeginFramesDrag => injection h with h2; subst h2; rfl
  case BeginKeyframeDurationDrag r i =>
    exact begin_keyframe_duration_drag_sheet d i r nd h
  case UpdateKeyframeDurationDrag t m =>
    exact absurd h (update_keyframe_duration_drag_not_ok d t m nd ht)
  case BeginKeyframeDrag =>
    injection h with h2; subst h2; rfl
  case BeginKeyframeOffsetDrag =>
    exact begin_keyframe_offset_drag_sheet d nd h
  case UpdateKeyframeOffsetDrag o b =>
    exact absurd h (update_keyframe_offset_drag_not_ok d o b nd ht)
  case BeginHitboxScale axis =>
    exact begin_hitbox_scale_sheet d axis nd h
  case UpdateHitboxScale o b =>
    exact absurd h (update_hitbox_scale_not_ok d o b nd ht)
  case BeginHitboxDrag =>
    exact begin_hitbox_drag_sheet d nd h
  case UpdateHitboxDrag o b =>
    exact absurd h (update_hitbox_drag_not_ok d o b nd ht)
  case BeginScrub =>
    injection h with h2; subst h2; rfl
  case UpdateScrub t =>
    exact update_timeline_scrub_sheet d t nd h
  case BeginRenameSelection =>
    injection h with h2; subst h2; exact begin_rename_selection_sheet d
  case UpdateRenameSelection n =>
    injection h with h2; subst h2; rfl

theorem record_command_sheet (d : Document) (c : DocumentCommand) (nd : Document) :
    (record_command d c nd).sheet = nd.sheet := (record_command_fields d c nd).1

theorem push_undo_state_transient (d : Document) (e : HistoryEntry) :
    (push_undo_state d e).transient = d.transient := by simp [push_undo_state]

theorem push_undo_state_next_version (d : Document) (e : HistoryEntry) :
    (push_undo_state d e).next_version = d.next_version := by simp [push_undo_state]

/-- The entry pushed by a successful content-mutating command, together with
the resulting history and cursor: every gesture-free, sheet-changing,
successful command truncates the redo tail, appends a snapshot and caps the
history at 100 entries. -/
theorem process_step (d d' : Document) (c : DocumentCommand)
    (ht : d.transient = none) (hsync : d.sheet = d.top_entry.sheet)
    (h : process_command d c = (d', none)) (hs : d'.sheet ≠ d.sheet) :
    d'.transient = none ∧ d'.next_version = d.next_version + 1 ∧
    d'.history = last_n 100 (d.history.take (d.history_index + 1) ++
      [⟨some c, d'.sheet, d'.view, d.next_version + 1⟩]) ∧
    d'.history_index = d'.history.length - 1 := by
  obtain ⟨nd, happ, hrec⟩ := process_command_ok d c d' h
  by_cases hc : Transient.is_transient_command c = true
  · exact absurd (by
      have h1 := apply_transient_cmd_sheet d nd c ht hc happ
      have h2 : d'.sheet = nd.sheet := by
        rw [hrec]
        simp only [hc, if_true]
        exact record_command_sheet d c nd
      rw [h2, h1]) hs
  · rw [Bool.not_eq_true] at hc
    rw [hc] at hrec
    simp only [Bool.false_eq_true, if_false] at hrec
    have hnone : ({ nd with transient := none } : Document).transient = none := rfl
    have hsheet : d'.sheet = nd.sheet := by
      rw [hrec]; exact record_command_sheet d c ({ nd with transient := none })
    have hview : d'.view = nd.view := by
      rw [hrec]; exact (record_command_fields d c ({ nd with transient := none })).2.1
    have hchg : d.top_entry.sheet ≠ ({ nd with transient := none } : Document).sheet := by
      intro hx
      exact hs (by rw [hsheet]; rw [← hsync] at hx; exact hx.symm ▸ rfl)
    rw [record_command_push d c ({ nd with transient := none }) hnone hchg] at hrec
    refine ⟨?_, ?_, ?_, ?_⟩
    · rw [hrec, push_undo_state_transient]
    · rw [hrec, push_undo_state_next_version]
    · rw [hsheet, hview, hrec, push_undo_state_history]
    · rw [hrec]
      exact push_undo_state_index _ _

end Document

theorem last_n_append_one (xs : List HistoryEntry) (e : HistoryEntry) :
    last_n 100 (xs ++ [e]) = xs.drop ((xs.length + 1) - 100) ++ [e] := by
  unfold last_n
  rw [List.length_append]
  simp only [List.length_cons, List.length_nil]
  rw [List.drop_append_of_le_length (by omega)]

theorem last_n_last_n (Y : List HistoryEntry) (e : HistoryEntry) :
    last_n 100 (last_n 100 Y ++ [e]) = last_n 100 (Y ++ [e]) := by
  rw [last_n_append_one, last_n_append_one]
  simp only [last_n, List.length_drop]
  rw [List.drop_drop]
  have h : Y.length - 100 + (Y.length - (Y.length - 100) + 1 - 100) = Y.length + 1 - 100 := by
    omega
  rw [h]

theorem getD_last_n_append (xs : List HistoryEntry) (e dflt : HistoryEntry) :
    (last_n 100 (xs ++ [e])).getD ((last_n 100 (xs ++ [e])).length - 1) dflt = e := by
  rw [last_n_append_one, List.getD_eq_getElem?_getD]
  have h : (xs.drop ((xs.length + 1) - 100) ++ [e]).length - 1
      = (xs.drop ((xs.length + 1) - 100)).length := by simp
  rw [h, List.getElem?_concat_length]
  rfl

theorem last_n_length_pos (xs : List HistoryEntry) (e : HistoryEntry) :
    0 < (last_n 100 (xs ++ [e])).length := by
  rw [last_n_append_one]
  simp

namespace Document

theorem chain_extend (d d' : Document) (c : DocumentCommand)
    (ht : d.transient = none) (hsync : d.sheet = d.top_entry.sheet)
    (h : process_command d c = (d', none)) (hs : d'.sheet ≠ d.sheet) :
    chain_inv (d.history.take (d.history_index + 1) ++
      [⟨some c, d'.sheet, d'.view, d.next_version + 1⟩]) d' := by
  obtain ⟨ht', _, hh', hi'⟩ := process_step d d' c ht hsync h hs
  refine ⟨ht', hh', hi', ?_, ?_⟩
  · rw [hh']; exact last_n_length_pos _ _
  · rw [hi', hh', getD_last_n_append]

theorem chain_inv_extend (Y : List HistoryEntry) (d d' : Document) (c : DocumentCommand)
    (hI : chain_inv Y d) (h : process_command d c = (d', none)) (hs : d'.sheet ≠ d.sheet) :
    chain_inv (Y ++ [⟨some c, d'.sheet, d'.view, d.next_version + 1⟩]) d' := by
  obtain ⟨ht, hh, hi, hpos, hsync⟩ := hI
  have hsync2 : d.sheet = d.top_entry.sheet := hsync
  have hbase := chain_extend d d' c ht hsync2 h hs
  have htake : d.history.take (d.history_index + 1) = d.history := by
    rw [hi, Nat.sub_add_cancel hpos, List.take_length]
  rw [htake, hh] at hbase
  obtain ⟨h1, h2, h3, h4, h5⟩ := hbase
  exact ⟨h1, by rw [h2, last_n_last_n], h3, h4, h5⟩

theorem chain_run (cs : List DocumentCommand) : ∀ (Y : List HistoryEntry) (d : Document),
    chain_inv Y d → mutating_ok d cs = true →
    (run_all d cs).2 = none ∧
    ∃ es : List HistoryEntry, es.length = cs.length ∧ chain_inv (Y ++ es) (run_all d cs).1 := by
  induction cs with
  | nil =>
    intro Y d hI _
    exact ⟨rfl, [], rfl, by simpa using hI⟩
  | cons c cs ih =>
    intro Y d hI hm
    unfold mutating_ok at hm
    cases hp : process_command d c with
    | mk d2 r =>
      rw [hp] at hm
      cases r with
      | some e => simp at hm
      | none =>
        rw [Bool.and_eq_true] at hm
        have hne : d2.sheet ≠ d.sheet := by
          intro hx
          have := hm.1
          rw [hx] at this
          simp at this
        have hI2 := chain_inv_extend Y d d2 c hI hp hne
        have hrun : run_all d (c :: cs) = run_all d2 cs := by
          rw [run_all, hp]
        obtain ⟨hnone, es, hlen, hinv⟩ := ih _ d2 hI2 hm.2
        refine ⟨by rw [hrun]; exact hnone, ⟨some c, d2.sheet, d2.view, d.next_version + 1⟩ :: es,
          by simp [hlen], ?_⟩
        rw [hrun]
        simpa using hinv

theorem undo_move (d : Document) (ht : d.transient = none) (hi : 0 < d.history_index) :
    d.undo = (undo_moved d, none) := by
  unfold undo can_use_undo_system undo_moved
  rw [ht]
  simp [hi]

theorem undo_stay (d : Document) (ht : d.transient = none) (hi : d.history_index = 0) :
    d.undo = (d, none) := by
  unfold undo can_use_undo_system
  rw [ht, hi]
  simp

theorem undo_gesture (d : Document) (t : Transient) (ht : d.transient = some t) :
    d.undo = (d, some StateError.UndoOperationNowAllowed) := by
  unfold undo can_use_undo_system
  rw [ht]
  simp

theorem redo_move (d : Document) (ht : d.transient = none)
    (hi : d.history_index < d.history.length - 1) :
    d.redo = (redo_moved d, none) := by
  unfold redo can_use_undo_system redo_moved
  rw [ht]
  simp [hi]

theorem redo_stay (d : Document) (ht : d.transient = none)
    (hi : ¬d.history_index < d.history.length - 1) :
    d.redo = (d, none) := by
  unfold redo can_use_undo_system
  rw [ht]
  simp [hi]

theorem redo_gesture (d : Document) (t : Transient) (ht : d.transient = some t) :
    d.redo = (d, some StateError.UndoOperationNowAllowed) := by
  unfold redo can_use_undo_system
  rw [ht]
  simp

theorem undo_n_spec (n : Nat) : ∀ d : Document, d.transient = none → n ≤ d.history_index →
    (undo_n d n).history = d.history ∧
    (undo_n d n).history_index = d.history_index - n ∧
    (undo_n d n).transient = none ∧
    (undo_n d n).sheet =
      (if n = 0 then d.sheet else (d.history.getD (d.history_index - n) default).sheet) := by
  induction n with
  | zero => intro d ht _; exact ⟨rfl, rfl, ht, by simp [undo_n]⟩
  | succ n ih =>
    intro d ht hn
    have hi : 0 < d.history_index := by omega
    have hstep : undo_n d (n + 1) = undo_n (undo_moved d) n := by
      show undo_n d.undo.1 n = _
      rw [undo_move d ht hi]
    obtain ⟨ih1, ih2, ih3, ih4⟩ := ih (undo_moved d) ht
      (by show n ≤ d.history_index - 1; omega)
    rw [hstep]
    refine ⟨ih1, ?_, ih3, ?_⟩
    · rw [ih2]
      show d.history_index - 1 - n = d.history_index - (n + 1)
      omega
    · rw [ih4]
      by_cases hz : n = 0
    
      · rw [if_pos hz, if_neg (by omega : ¬n + 1 = 0)]
        show (d.history.getD (d.history_index - 1) default).sheet = _
        have he : d.history_index - 1 = d.history_index - (n + 1) := by omega
        rw [he]
      · rw [if_neg hz, if_neg (by omega : ¬n + 1 = 0)]
        show (d.history.getD (d.history_index - 1 - n) default).sheet = _
        have he : d.history_index - 1 - n = d.history_index - (n + 1) := by omega
        rw [he]

theorem redo_n_spec (n : Nat) : ∀ d : Document, d.transient = none →
    d.history_index + n < d.history.length →
    (redo_n d n).history = d.history ∧
    (redo_n d n).history_index = d.history_index + n ∧
    (redo_n d n).transient = none ∧
    (redo_n d n).sheet =
      (if n = 0 then d.sheet else (d.history.getD (d.history_index + n) default).sheet) := by
  induction n with
  | zero => intro d ht _; exact ⟨rfl, rfl, ht, by simp [redo_n]⟩
  | succ n ih =>
    intro d ht hn
    have hi : d.history_index < d.history.length - 1 := by omega
    have hstep : redo_n d (n + 1) = redo_n (redo_moved d) n := by
      show redo_n d.redo.1 n = _
      rw [redo_move d ht hi]
    obtain ⟨ih1, ih2, ih3, ih4⟩ := ih (redo_moved d) ht
      (by show d.history_index + 1 + n < d.history.length; omega)
    rw [hstep]
    refine ⟨ih1, ?_, ih3, ?_⟩
    · rw [ih2]
      show d.history_index + 1 + n = d.history_index + (n + 1)
      omega
    · rw [ih4]
      by_cases hz : n = 0
      · rw [if_pos hz, if_neg (by omega : ¬n + 1 = 0)]
        show (d.history.getD (d.history_index + 1) default).sheet = _
        have he : d.history_index + 1 = d.history_index + (n + 1) := by omega
        rw [he]
      · rw [if_neg hz, if_neg (by omega : ¬n + 1 = 0)]
        show (d.history.getD (d.history_index + 1 + n) default).sheet = _
        have he : d.history_index + 1 + n = d.history_index + (n + 1) := by omega
        rw [he]

end Document

theorem getD_last_n (l : List HistoryEntry) (j : Nat) (dflt : HistoryEntry) :
    (last_n 100 l).getD j dflt = l.getD ((l.length - 100) + j) dflt := by
  unfold last_n
  rw [List.getD_eq_getElem?_getD, List.getElem?_drop, ← List.getD_eq_getElem?_getD]

theorem getD_append_left (l1 l2 : List HistoryEntry) (j : Nat) (dflt : HistoryEntry)
    (h : j < l1.length) : (l1 ++ l2).getD j dflt = l1.getD j dflt := by
  rw [List.getD_eq_getElem?_getD, List.getElem?_append_left h, ← List.getD_eq_getElem?_getD]

theorem getD_take_of_lt (l : List HistoryEntry) (k j : Nat) (dflt : HistoryEntry) (h : j < k) :
    (l.take k).getD j dflt = l.getD j dflt := by
  rw [List.getD_eq_getElem?_getD, List.getElem?_take_of_lt h, ← List.getD_eq_getElem?_getD]

/-- Core of the undo/redo round trip: a gesture-free well-formed document, a
run of at most 99 content-mutating successful commands; undoing them all
restores the original sheet and redoing them all restores the final sheet. -/
theorem round_trip_core (d0 : Document) (cs : List DocumentCommand)
    (hwf : Wf d0) (ht : d0.transient = none) (hsync : d0.sheet = d0.top_entry.sheet)
    (hn : cs.length ≤ 99) (hm : mutating_ok d0 cs = true) :
    (run_all d0 cs).2 = none ∧
    (undo_n (run_all d0 cs).1 cs.length).sheet = d0.sheet ∧
    (redo_n (undo_n (run_all d0 cs).1 cs.length) cs.length).sheet = (run_all d0 cs).1.sheet := by
  cases cs with
  | nil => exact ⟨rfl, rfl, rfl⟩
  | cons c cs' =>
    unfold mutating_ok at hm
    cases hp : Document.process_command d0 c with
    | mk d1 r =>
      rw [hp] at hm
      cases r with
      | some e => simp at hm
      | none =>
        rw [Bool.and_eq_true] at hm
        have hne : d1.sheet ≠ d0.sheet := by
          intro hx
          have hb := hm.1
          rw [hx] at hb
          simp at hb
        have hI1 := Document.chain_extend d0 d1 c ht hsync hp hne
        have hrun : run_all d0 (c :: cs') = run_all d1 cs' := by
          rw [run_all, hp]
        obtain ⟨hnone, es, hlen, hinv⟩ := Document.chain_run cs' _ d1 hI1 hm.2
        obtain ⟨htn, hhn, hin, hposn, hsyncn⟩ := hinv
        obtain ⟨hwf1, hwf2, hwf3⟩ := hwf
        have htklen : (d0.history.take (d0.history_index + 1)).length = d0.history_index + 1 := by
          rw [List.length_take]; omega
        have hYlen : ((d0.history.take (d0.history_index + 1) ++
            [(⟨some c, d1.sheet, d1.view, d0.next_version + 1⟩ : HistoryEntry)]) ++ es).length
            = d0.history_index + 2 + cs'.length := by
          simp [htklen, hlen]
          omega
        have hlenn : (run_all d1 cs').1.history.length =
            (d0.history_index + 2 + cs'.length) - ((d0.history_index + 2 + cs'.length) - 100) := by
          rw [hhn]
          unfold last_n
          rw [List.length_drop, hYlen]
        have hle : cs'.length + 1 ≤ (run_all d1 cs').1.history_index := by
          rw [hin, hlenn]
          simp only [List.length_cons] at hn
          omega
        obtain ⟨hu1, hu2, hu3, hu4⟩ :=
          Document.undo_n_spec (cs'.length + 1) (run_all d1 cs').1 htn hle
        have hK : (run_all d1 cs').1.history_index - (cs'.length + 1)
            < (run_all d1 cs').1.history.length := by omega
        have hundo_sheet : (undo_n (run_all d1 cs').1 (cs'.length + 1)).sheet = d0.sheet := by
          rw [hu4, if_neg (by omega : ¬cs'.length + 1 = 0), hhn, getD_last_n, hYlen]
          have harith : (d0.history_index + 2 + cs'.length) - 100 +
              ((run_all d1 cs').1.history_index - (cs'.length + 1)) = d0.history_index := by
            rw [hin, hlenn]
            simp only [List.length_cons] at hn
            omega
          rw [harith]
          rw [getD_append_left _ _ _ _ (by
            simp only [List.length_append, htklen, List.length_cons, List.length_nil]
            omega)]
          rw [getD_append_left _ _ _ _ (by rw [htklen]; omega)]
          rw [getD_take_of_lt _ _ _ _ (by omega)]
          exact hsync.symm
        refine ⟨by rw [hrun]; exact hnone, ?_, ?_⟩
        · show (undo_n (run_all d0 (c :: cs')).1 (cs'.length + 1)).sheet = d0.sheet
          rw [hrun]
          exact hundo_sheet
        · show (redo_n (undo_n (run_all d0 (c :: cs')).1 (cs'.length + 1)) (cs'.length + 1)).sheet
            = (run_all d0 (c :: cs')).1.sheet
          rw [hrun]
          have hredo_pre : (undo_n (run_all d1 cs').1 (cs'.length + 1)).history_index +
              (cs'.length + 1) < (undo_n (run_all d1 cs').1 (cs'.length + 1)).history.length := by
            rw [hu1, hu2]
            omega
          obtain ⟨hr1, hr2, hr3, hr4⟩ :=
            Document.redo_n_spec (cs'.length + 1) (undo_n (run_all d1 cs').1 (cs'.length + 1))
              hu3 hredo_pre
          rw [hr4, if_neg (by omega : ¬cs'.length + 1 = 0), hu1, hu2]
          have harith2 : (run_all d1 cs').1.history_index - (cs'.length + 1) + (cs'.length + 1)
              = (run_all d1 cs').1.history_index := by omega
          rw [harith2]
          exact hsyncn.symm

namespace Document

theorem record_command_wf (d : Document) (c : DocumentCommand) (nd : Document)
    (hwf : Wf d) : Wf (record_command d c nd) := by
  by_cases hts : nd.transient.isSome
  · rw [record_command_transient d c nd hts]
    exact hwf
  · have hnone : nd.transient = none := by
      cases hx : nd.transient
      · rfl
      · rw [hx] at hts; simp at hts
    by_cases hs : d.top_entry.sheet = nd.sheet
    · by_cases hv : d.top_entry.view = nd.view
      · rw [record_command_nochange d c nd hnone hs hv]
        exact hwf
      · by_cases hmg : d.history_index > 0 ∧
            (d.history.getD (d.history_index - 1) default).sheet = d.top_entry.sheet
        · rw [record_command_view_merge d c nd hnone hs hv hmg.1 hmg.2]
          unfold Wf at hwf ⊢
          simpa [List.length_set] using hwf
        · rw [record_command_view_push d c nd hnone hs hv hmg]
          exact push_undo_state_wf _ _
    · rw [record_command_push d c nd hnone hs]
      exact push_undo_state_wf _ _

theorem process_command_wf (d : Document) (c : DocumentCommand) (hwf : Wf d) :
    Wf (process_command d c).1 := by
  cases hp : process_command d c with
  | mk d' r =>
    cases r with
    | some e => rw [process_command_err d c d' e hp]; exact hwf
    | none =>
      obtain ⟨nd, _, hrec⟩ := process_command_ok d c d' hp
      simp only []
      rw [hrec]
      exact record_command_wf _ _ _ hwf

theorem run_all_wf (cs : List DocumentCommand) : ∀ d : Document, Wf d →
    Wf (run_all d cs).1 := by
  induction cs with
  | nil => intro d hwf; exact hwf
  | cons c cs ih =>
    intro d hwf
    rw [run_all]
    cases hp : process_command d c with
    | mk d2 r =>
      cases r with
      | none =>
        have := process_command_wf d c hwf
        rw [hp] at this
        exact ih d2 this
      | some e =>
        have := process_command_wf d c hwf
        rw [hp] at this
        exact this

/-- Pushing onto a full history evicts the oldest entry and leaves the
cursor at 99. -/
theorem push_undo_state_full (d : Document) (e : HistoryEntry)
    (hlen : d.history.length = 100) (hidx : d.history_index = 99) :
    (push_undo_state d e).history = d.history.drop 1 ++ [e] ∧
    (push_undo_state d e).history_index = 99 := by
  rw [push_undo_state_eq]
  have htake : d.history.take (d.history_index + 1) = d.history := by
    rw [hidx]
    have h100 : 99 + 1 = d.history.length := by omega
    rw [h100]
    exact List.take_length d.history
  rw [htake]
  constructor
  · show last_n 100 (d.history ++ [e]) = _
    rw [last_n_append_one, hlen]
  · simp [hlen]

theorem getElem?_some_lt (l : List HistoryEntry) (i : Nat) (x : HistoryEntry)
    (h : l[i]? = some x) : i < l.length := by
  by_contra hc
  rw [List.getElem?_eq_none (by omega)] at h
  exact Option.noConfusion h

end Document

theorem keyframe_getElem_some_lt (l : List Keyframe) (i : Nat) (x : Keyframe)
    (h : l[i]? = some x) : i < l.length := by
  by_contra hc
  rw [List.getElem?_eq_none (by omega)] at h
  exact Option.noConfusion h

theorem Animation.get_frame_eq (a : Animation) (i : Nat) : a.get_frame i = a.timeline[i]? := by
  simp [Animation.get_frame, List.get?_eq_getElem?]

theorem Animation.set_frame_timeline (a : Animation) (i : Nat) (k : Keyframe) :
    (a.set_frame i k).timeline = a.timeline.set i k := rfl

namespace Document

theorem apply_duration_loop_untouched (kd : KeyframeDuration) (delta : Int) (m : Nat) :
    ∀ (is : List Nat) (a a' : Animation),
    apply_duration_loop kd delta m a is = Except.ok a' →
    ∀ j, j ∉ is → a'.timeline[j]? = a.timeline[j]? := by
  intro is
  induction is with
  | nil => intro a a' h j _; injection h with h2; rw [h2]
  | cons i is ih =>
    intro a a' h j hj
    unfold apply_duration_loop at h
    cases hf : a.get_frame i with
    | none => rw [hf] at h; exact Except.noConfusion h
    | some kf =>
      rw [hf] at h
      cases hl : kd.initial_duration.lookup i with
      | none => rw [hl] at h; exact Except.noConfusion h
      | some old =>
        rw [hl] at h
        have hji : j ≠ i := fun hx => hj (hx ▸ List.mem_cons_self i is)
        have hjs : j ∉ is := fun hx => hj (List.mem_cons_of_mem i hx)
        rw [ih _ _ h j hjs, Animation.set_frame_timeline]
        exact List.getElem?_set_ne (fun hx => hji hx.symm)

theorem apply_duration_loop_selected (kd : KeyframeDuration) (delta : Int) (m : Nat) :
    ∀ (is : List Nat) (a a' : Animation),
    apply_duration_loop kd delta m a is = Except.ok a' →
    ∀ j dj, j ∈ is → kd.initial_duration.lookup j = some dj →
    a'.timeline[j]? = (a.timeline[j]?).map
      (fun kf => { kf with duration := (max ((dj : Int) + delta) ((m : Nat) : Int)).toNat }) := by
  intro is
  induction is with
  | nil => intro a a' _ j dj hj _; exact absurd hj (List.not_mem_nil j)
  | cons i is ih =>
    intro a a' h j dj hj hdj
    unfold apply_duration_loop at h
    cases hf : a.get_frame i with
    | none => rw [hf] at h; exact Except.noConfusion h
    | some kf =>
      rw [hf] at h
      cases hl : kd.initial_duration.lookup i with
      | none => rw [hl] at h; exact Except.noConfusion h
      | some old =>
        rw [hl] at h
        have hilen : i < a.timeline.length :=
          keyframe_getElem_some_lt a.timeline i kf (by rw [← Animation.get_frame_eq]; exact hf)
        by_cases hjs : j ∈ is
        · rw [ih _ _ h j dj hjs hdj, Animation.set_frame_timeline]
          by_cases hji : j = i
          · subst hji
            have hdo : dj = old := by rw [hdj] at hl; injection hl
            subst hdo
            rw [List.getElem?_set_eq hilen]
            have hfr : a.timeline[j]? = some kf := by rw [← Animation.get_frame_eq]; exact hf
            rw [hfr]
            rfl
          · rw [List.getElem?_set_ne (fun hx => hji hx.symm)]
        · have hji : j = i := by
            cases List.mem_cons.mp hj with
            | inl hx => exact hx
            | inr hx => exact absurd hx hjs
          subst hji
          have hdo : dj = old := by rw [hdj] at hl; injection hl
          subst hdo
          rw [apply_duration_loop_untouched kd delta m is _ _ h j hjs,
            Animation.set_frame_timeline, List.getElem?_set_eq hilen]
          have hfr : a.timeline[j]? = some kf := by rw [← Animation.get_frame_eq]; exact hf
          rw [hfr]
          rfl

end Document

/-- Replacing the unique `key`-matching element of a list keeps it findable
under the new element's key. -/
theorem find_key_map_set {α κ : Type} [BEq κ] [LawfulBEq κ] (key : α → κ) (l : List α)
    (n : κ) (a A : α) (h : l.find? (fun x => key x == n) = some A) (hk : key a = n) :
    (l.map (fun x => if key x == n then a else x)).find? (fun x => key x == n) = some a := by
  induction l with
  | nil => simp at h
  | cons x xs ih =>
    by_cases hx : key x = n
    · simp only [List.map]
      rw [if_pos (by simp [hx])]
      rw [List.find?_cons_of_pos ((List.map (fun x => if (key x == n) = true then a else x) xs)) (by simp [hk])]
    · have hxb : ¬((fun x => key x == n) x = true) := by simp [hx]
      rw [List.find?_cons_of_neg xs hxb] at h
      simp only [List.map]
      rw [if_neg (by simp [hx])]
      rw [List.find?_cons_of_neg ((List.map (fun x => if (key x == n) = true then a else x) xs)) hxb]
      exact ih h

theorem any_key_map_set {α κ : Type} [BEq κ] [LawfulBEq κ] (key : α → κ) (l : List α)
    (n m : κ) (a A : α) (h : l.find? (fun x => key x == n) = some A) (hk : key a = m) :
    (l.map (fun x => if key x == n then a else x)).any (fun x => key x == m) = true := by
  induction l with
  | nil => simp at h
  | cons x xs ih =>
    by_cases hx : key x = n
    · simp only [List.map]
      rw [if_pos (by simp [hx])]
      simp [List.any_cons, hk]
    · have hxb : ¬((fun x => key x == n) x = true) := by simp [hx]
      rw [List.find?_cons_of_neg xs hxb] at h
      simp only [List.map]
      rw [if_neg (by simp [hx])]
      rw [List.any_cons, Bool.or_eq_true]
      exact Or.inr (ih h)

theorem Sheet.get_animation_name (s : Sheet) (n : String) (A : Animation)
    (h : s.get_animation n = some A) : A.name = n := by
  unfold Sheet.get_animation at h
  have := List.find?_some h
  simpa using this

theorem Frame.get_hitbox_name (f : Frame) (n : String) (A : Hitbox)
    (h : f.get_hitbox n = some A) : A.name = n := by
  unfold Frame.get_hitbox at h
  have := List.find?_some h
  simpa using this

theorem Sheet.get_frame_source (s : Sheet) (p : Nat) (A : Frame)
    (h : s.get_frame p = some A) : A.source = p := by
  unfold Sheet.get_frame at h
  have := List.find?_some h
  simpa using this

theorem Sheet.get_set_animation (s : Sheet) (n : String) (a A : Animation)
    (h : s.get_animation n = some A) (hname : a.name = n) :
    (s.set_animation n a).get_animation n = some a := by
  unfold Sheet.get_animation at h
  exact find_key_map_set (fun x => x.name) s.animations n a A h hname

theorem Sheet.has_animation_set (s : Sheet) (n : String) (a A : Animation)
    (h : s.get_animation n = some A) :
    (s.set_animation n a).has_animation a.name = true := by
  unfold Sheet.get_animation at h
  exact any_key_map_set (fun x => x.name) s.animations n a.name a A h rfl

theorem Frame.get_set_hitbox (f : Frame) (n : String) (a A : Hitbox)
    (h : f.get_hitbox n = some A) (hname : a.name = n) :
    (f.set_hitbox n a).get_hitbox n = some a := by
  unfold Frame.get_hitbox at h
  exact find_key_map_set (fun x => x.name) f.hitboxes n a A h hname

theorem Frame.has_hitbox_set (f : Frame) (n : String) (a A : Hitbox)
    (h : f.get_hitbox n = some A) :
    (f.set_hitbox n a).has_hitbox a.name = true := by
  unfold Frame.get_hitbox at h
  exact any_key_map_set (fun x => x.name) f.hitboxes n a.name a A h rfl

theorem Sheet.get_set_frame (s : Sheet) (p : Nat) (a A : Frame)
    (h : s.get_frame p = some A) (hname : a.source = p) :
    (s.set_frame p a).get_frame p = some a := by
  unfold Sheet.get_frame at h
  exact find_key_map_set (fun x => x.source) s.frames p a A h hname

namespace Document

theorem apply_duration_loop_name (kd : KeyframeDuration) (delta : Int) (m : Nat) :
    ∀ (is : List Nat) (a a' : Animation),
    apply_duration_loop kd delta m a is = Except.ok a' → a'.name = a.name := by
  intro is
  induction is with
  | nil => intro a a' h; injection h with h2; rw [h2]
  | cons i is ih =>
    intro a a' h
    unfold apply_duration_loop at h
    cases hf : a.get_frame i with
    | none => rw [hf] at h; exact Except.noConfusion h
    | some kf =>
      rw [hf] at h
      cases hl : kd.initial_duration.lookup i with
      | none => rw [hl] at h; exact Except.noConfusion h
      | some old =>
        rw [hl] at h
        dsimp only at h
        rw [ih _ _ h]
        rfl

/-- Characterization of `update_keyframe_duration_drag`: the shared per-frame
delta is the cursor-reference difference, integer-divided by the number of
selected keyframes at or before the dragged one (at least 1); every selected
keyframe gets its snapshot duration plus that delta (clamped below by the
minimum), and every other keyframe is untouched. -/
theorem update_kdd_spec (d : Document) (t m : Nat) (d' : Document) (an : String)
    (A : Animation) (ms : MultiSelection Nat) (kd : KeyframeDuration)
    (hwb : d.view.workbench_item = some (WorkbenchItem.Animation an))
    (hA : d.sheet.get_animation an = some A)
    (hsel : d.view.selection = some (Selection.Keyframe ms))
    (htr : d.transient = some (Transient.KeyframeDuration kd))
    (hok : update_keyframe_duration_drag d t m = Except.ok d') :
    ∃ A', d'.sheet.get_animation an = some A' ∧
      (∀ j, j ∉ ms.items → A'.timeline[j]? = A.timeline[j]?) ∧
      (∀ j dj, j ∈ ms.items → kd.initial_duration.lookup j = some dj →
        A'.timeline[j]? = (A.timeline[j]?).map
          (fun kf => { kf with duration :=
            (max ((dj : Int) + Int.tdiv ((t : Int) - ((kd.reference_clock : Nat) : Int))
              ((((ms.items.filter (fun i => i ≤ kd.frame_being_dragged)).length.max 1 : Nat) : Int)))
              ((m : Nat) : Int)).toNat })) := by
  have hga : d.get_workbench_animation = Except.ok A := by
    unfold get_workbench_animation
    rw [hwb]
    dsimp only
    rw [hA]
  unfold update_keyframe_duration_drag at hok
  rw [hga] at hok
  dsimp only at hok
  rw [hsel] at hok
  dsimp only at hok
  rw [htr] at hok
  dsimp only at hok
  have hAn : A.name = an := Sheet.get_animation_name d.sheet an A hA
  rw [hAn, hA] at hok
  dsimp only at hok
  cases hloop : apply_duration_loop kd
      (Int.tdiv ((t : Int) - ((kd.reference_clock : Nat) : Int))
        ((((ms.items.filter (fun i => i ≤ kd.frame_being_dragged)).length.max 1 : Nat) : Int)))
      m A ms.items with
  | error e => rw [hloop] at hok; exact Except.noConfusion hok
  | ok A2 =>
    rw [hloop] at hok
    dsimp only at hok
    cases hgt : A2.get_frame_times.get? ms.last_touched_in_range with
    | none => rw [hgt] at hok; exact Except.noConfusion hok
    | some tp =>
      rw [hgt] at hok
      dsimp only at hok
      injection hok with hok2
      refine ⟨A2, ?_, ?_, ?_⟩
      · rw [← hok2]
        show (d.sheet.set_animation an A2).get_animation an = some A2
        exact Sheet.get_set_animation d.sheet an A2 A hA
          (by rw [apply_duration_loop_name kd _ m ms.items A A2 hloop]; exact hAn)
      · exact apply_duration_loop_untouched kd _ m ms.items A A2 hloop
      · exact apply_duration_loop_selected kd _ m ms.items A A2 hloop

/-- Renaming an animation to a name that already exists fails. -/
theorem end_rename_animation_collision (d : Document) (ms : MultiSelection String)
    (new_name : String)
    (hsel : d.view.selection = some (Selection.Animation ms))
    (htr : d.transient = some (Transient.Rename ⟨new_name⟩))
    (hne : ms.last_touched_in_range ≠ new_name)
    (hcol : d.sheet.has_animation new_name = true) :
    end_rename_selection d = Except.error StateError.AnimationAlreadyExists := by
  unfold end_rename_selection
  rw [htr]
  dsimp only
  rw [hsel]
  dsimp only
  rw [if_pos hne, if_pos hcol]

/-- Renaming a hitbox to a name that already exists on the workbench frame
fails. -/
theorem end_rename_hitbox_collision (d : Document) (ms : MultiSelection String)
    (new_name : String) (p : Nat) (fr : Frame)
    (hsel : d.view.selection = some (Selection.Hitbox ms))
    (htr : d.transient = some (Transient.Rename ⟨new_name⟩))
    (hne : ms.last_touched_in_range ≠ new_name)
    (hwb : d.view.workbench_item = some (WorkbenchItem.Frame p))
    (hfr : d.sheet.get_frame p = some fr)
    (hcol : fr.has_hitbox new_name = true) :
    end_rename_selection d = Except.error StateError.HitboxAlreadyExists := by
  have hgf : d.get_workbench_frame = Except.ok fr := by
    unfold get_workbench_frame
    rw [hwb]
    dsimp only
    rw [hfr]
  have hsrc : fr.source = p := Sheet.get_frame_source d.sheet p fr hfr
  unfold end_rename_selection
  rw [htr]
  dsimp only
  rw [hsel]
  dsimp only
  rw [if_pos hne, hgf]
  dsimp only
  rw [hsrc, hfr]
  dsimp only
  rw [if_pos hcol]

/-- Renaming an animation to a fresh name succeeds: the animation is renamed
in place, the selection follows the new name, and the workbench item follows
it when it pointed at the old name. -/
theorem end_rename_animation_success (d : Document) (ms : MultiSelection String)
    (new_name : String) (A : Animation)
    (hsel : d.view.selection = some (Selection.Animation ms))
    (htr : d.transient = some (Transient.Rename ⟨new_name⟩))
    (hne : ms.last_touched_in_range ≠ new_name)
    (hcol : d.sheet.has_animation new_name = false)
    (hA : d.sheet.get_animation ms.last_touched_in_range = some A) :
    ∃ d', end_rename_selection d = Except.ok d' ∧
      d'.sheet = d.sheet.set_animation ms.last_touched_in_range { A with name := new_name } ∧
      d'.view.selection = some (Selection.Animation ⟨[new_name], new_name⟩) ∧
      d'.view.workbench_item = (if d.view.workbench_item
          = some (WorkbenchItem.Animation ms.last_touched_in_range)
        then some (WorkbenchItem.Animation new_name) else d.view.workbench_item) := by
  have hren : d.sheet.rename_animation ms.last_touched_in_range new_name
      = Except.ok (d.sheet.set_animation ms.last_touched_in_range { A with name := new_name }) := by
    unfold Sheet.rename_animation
    rw [hA]
  have hhas : (d.sheet.set_animation ms.last_touched_in_range
      { A with name := new_name }).has_animation new_name = true :=
    Sheet.has_animation_set d.sheet ms.last_touched_in_range
      ({ A with name := new_name }) A hA
  unfold end_rename_selection
  rw [htr]
  dsimp only
  rw [hsel]
  dsimp only
  rw [if_pos hne, if_neg (by simp [hcol]), hren]
  dsimp only
  unfold select_animations
  dsimp only
  rw [show (MultiSelection.new [new_name]).items = [new_name] from rfl]
  rw [List.find?_cons_of_neg [] (by simp [hhas]), List.find?_nil]
  dsimp only
  rw [if_neg (by simp)]
  dsimp only
  by_cases hwb : d.view.workbench_item = some (WorkbenchItem.Animation ms.last_touched_in_range)
  · rw [if_pos (by simpa using hwb), if_pos hwb]
    exact ⟨_, rfl, rfl, rfl, rfl⟩
  · rw [if_neg (by simpa using hwb), if_neg hwb]
    exact ⟨_, rfl, rfl, rfl, rfl⟩

/-- Renaming a hitbox to a fresh name succeeds: the hitbox is renamed on the
workbench frame and the selection follows the new name. -/
theorem end_rename_hitbox_success (d : Document) (ms : MultiSelection String)
    (new_name : String) (p : Nat) (fr : Frame) (hb : Hitbox)
    (hsel : d.view.selection = some (Selection.Hitbox ms))
    (htr : d.transient = some (Transient.Rename ⟨new_name⟩))
    (hne : ms.last_touched_in_range ≠ new_name)
    (hwb : d.view.workbench_item = some (WorkbenchItem.Frame p))
    (hfr : d.sheet.get_frame p = some fr)
    (hcol : fr.has_hitbox new_name = false)
    (hhb : fr.get_hitbox ms.last_touched_in_range = some hb) :
    ∃ d', end_rename_selection d = Except.ok d' ∧
      d'.sheet = d.sheet.set_frame p
        (fr.set_hitbox ms.last_touched_in_range { hb with name := new_name }) ∧
      d'.view.selection = some (Selection.Hitbox ⟨[new_name], new_name⟩) := by
  have hgf : d.get_workbench_frame = Except.ok fr := by
    unfold get_workbench_frame
    rw [hwb]
    dsimp only
    rw [hfr]
  have hren : fr.rename_hitbox ms.last_touched_in_range new_name
      = Except.ok (fr.set_hitbox ms.last_touched_in_range { hb with name := new_name }) := by
    unfold Frame.rename_hitbox
    rw [hhb]
  have hsrc : fr.source = p := Sheet.get_frame_source d.sheet p fr hfr
  have hfr2 : (d.sheet.set_frame p
      (fr.set_hitbox ms.last_touched_in_range { hb with name := new_name })).get_frame p
      = some (fr.set_hitbox ms.last_touched_in_range { hb with name := new_name }) :=
    Sheet.get_set_frame d.sheet p _ fr hfr hsrc
  have hhas : (fr.set_hitbox ms.last_touched_in_range
      { hb with name := new_name }).has_hitbox new_name = true :=
    Frame.has_hitbox_set fr ms.last_touched_in_range ({ hb with name := new_name }) hb hhb
  unfold end_rename_selection
  rw [htr]
  dsimp only
  rw [hsel]
  dsimp only
  rw [if_pos hne, hgf]
  dsimp only
  rw [hsrc, hfr]
  dsimp only
  rw [if_neg (by simp [hcol]), hren]
  dsimp only
  unfold select_hitboxes
  dsimp only
  rw [hwb]
  dsimp only
  rw [hfr2]
  dsimp only
  rw [show (MultiSelection.new [new_name]).items = [new_name] from rfl]
  rw [List.find?_cons_of_neg [] (by simp [hhas]), List.find?_nil]
  dsimp only
  rw [if_neg (by simp)]
  exact ⟨_, rfl, rfl, rfl⟩

theorem try_close_fields (d : Document) :
    (try_close d).view = d.view ∧
    (try_close d).persistent.timeline_is_playing = d.persistent.timeline_is_playing ∧
    (try_close d).sheet = d.sheet := by
  unfold try_close
  split <;> simp

theorem tick_not_playing (d : Document) (delta : Nat)
    (h : d.persistent.timeline_is_playing = false) :
    (d.tick delta).view.timeline_clock = d.view.timeline_clock ∧
    (d.tick delta).persistent.timeline_is_playing = false := by
  unfold tick
  rw [(try_close_fields _).1, (try_close_fields _).2.1]
  unfold advance_timeline
  rw [h]
  simp [h]

theorem tick_playing_no_subject (d : Document) (delta : Nat)
    (hp : d.persistent.timeline_is_playing = true)
    (hwb : d.view.workbench_item = none) :
    (d.tick delta).view.timeline_clock = d.view.timeline_clock + delta := by
  unfold tick
  rw [(try_close_fields _).1]
  unfold advance_timeline
  rw [hp]
  rw [if_pos rfl]
  dsimp only
  rw [hwb]

theorem tick_looping (d : Document) (delta : Nat) (an : String) (a : Animation) (dur : Nat)
    (hp : d.persistent.timeline_is_playing = true)
    (hwb : d.view.workbench_item = some (WorkbenchItem.Animation an))
    (ha : d.sheet.get_animation an = some a)
    (hd : a.get_duration = some dur) (hpos : 0 < dur) (hl : a.is_looping = true) :
    (d.tick delta).view.timeline_clock = (d.view.timeline_clock + delta) % dur ∧
    (d.tick delta).persistent.timeline_is_playing = true := by
  unfold tick
  rw [(try_close_fields _).1, (try_close_fields _).2.1]
  unfold advance_timeline
  rw [hp]
  rw [if_pos rfl]
  dsimp only
  rw [hwb]
  dsimp only
  rw [ha]
  dsimp only
  rw [hd]
  dsimp only
  rw [if_pos hpos, hl]
  simp [hp]

theorem tick_nonloop_end (d : Document) (delta : Nat) (an : String) (a : Animation) (dur : Nat)
    (hp : d.persistent.timeline_is_playing = true)
    (hwb : d.view.workbench_item = some (WorkbenchItem.Animation an))
    (ha : d.sheet.get_animation an = some a)
    (hd : a.get_duration = some dur) (hpos : 0 < dur) (hl : a.is_looping = false)
    (hend : d.view.timeline_clock + delta ≥ dur) :
    (d.tick delta).view.timeline_clock = dur ∧
    (d.tick delta).persistent.timeline_is_playing = false := by
  unfold tick
  rw [(try_close_fields _).1, (try_close_fields _).2.1]
  unfold advance_timeline
  rw [hp]
  rw [if_pos rfl]
  dsimp only
  rw [hwb]
  dsimp only
  rw [ha]
  dsimp only
  rw [hd]
  dsimp only
  rw [if_pos hpos, hl]
  rw [if_neg (by simp)]
  rw [if_pos (by exact hend)]
  simp

theorem tick_nonloop_mid (d : Document) (delta : Nat) (an : String) (a : Animation) (dur : Nat)
    (hp : d.persistent.timeline_is_playing = true)
    (hwb : d.view.workbench_item = some (WorkbenchItem.Animation an))
    (ha : d.sheet.get_animation an = some a)
    (hd : a.get_duration = some dur) (hpos : 0 < dur) (hl : a.is_looping = false)
    (hmid : d.view.timeline_clock + delta < dur) :
    (d.tick delta).view.timeline_clock = d.view.timeline_clock + delta ∧
    (d.tick delta).persistent.timeline_is_playing = true := by
  unfold tick
  rw [(try_close_fields _).1, (try_close_fields _).2.1]
  unfold advance_timeline
  rw [hp]
  rw [if_pos rfl]
  dsimp only
  rw [hwb]
  dsimp only
  rw [ha]
  dsimp only
  rw [hd]
  dsimp only
  rw [if_pos hpos, hl]
  rw [if_neg (by simp)]
  rw [if_neg (by omega)]
  simp [hp]

theorem tick_degenerate (d : Document) (delta : Nat) (an : String) (a : Animation)
    (hp : d.persistent.timeline_is_playing = true)
    (hwb : d.view.workbench_item = some (WorkbenchItem.Animation an))
    (ha : d.sheet.get_animation an = some a)
    (hd : a.get_duration = none ∨ a.get_duration = some 0) :
    (d.tick delta).view.timeline_clock = 0 ∧
    (d.tick delta).persistent.timeline_is_playing = false := by
  unfold tick
  rw [(try_close_fields _).1, (try_close_fields _).2.1]
  unfold advance_timeline
  rw [hp]
  rw [if_pos rfl]
  dsimp only
  rw [hwb]
  dsimp only
  rw [ha]
  dsimp only
  cases hd with
  | inl h0 => rw [h0]; simp
  | inr h0 => rw [h0]; simp

end Document

set_option maxRecDepth 100000 in
/-- C2: atomicity of failing commands: whenever `process_command` reports an
error the document is returned entirely unchanged; in particular selecting
the frame paths 0 and 1 on a sheet that only holds frame 0 fails with
`FrameNotInDocument` and the prior (animation) selection is kept. -/
theorem C2_failing_command_atomicity :
    (∀ (d d' : Document) (c : DocumentCommand) (e : StateError),
      Document.process_command d c = (d', some e) → d' = d) ∧
    Document.process_command Document.c2doc
        (DocumentCommand.SelectFrames ⟨[0, 1], 1⟩)
      = (Document.c2doc, some StateError.FrameNotInDocument) ∧
    Document.c2doc.view.selection = some (Selection.Animation ⟨["a"], "a"⟩) :=
  ⟨fun d d' c e h => Document.process_command_err d c d' e h, by decide, by decide⟩

set_option maxRecDepth 100000 in
theorem C2_atomicity_witness :
    (Document.process_command Document.c2doc
      (DocumentCommand.SelectFrames ⟨[0, 1], 1⟩)).1 = Document.c2doc :=
  C2_failing_command_atomicity.1 Document.c2doc
    (Document.process_command Document.c2doc (DocumentCommand.SelectFrames ⟨[0, 1], 1⟩)).1
    (DocumentCommand.SelectFrames ⟨[0, 1], 1⟩) StateError.FrameNotInDocument (by decide)

set_option maxRecDepth 100000 in
/-- C3: gesture isolation: while a gesture is live, `record_command` leaves
history, cursor and version counter untouched and only installs the live
fields; a hitbox drag of begin, five updates and end yields exactly one new
history entry whose hitbox sits at the final drag position. -/
theorem C3_gesture_isolation :
    (∀ (d : Document) (c : DocumentCommand) (nd : Document), nd.transient.isSome →
      (Document.record_command d c nd).history = d.history ∧
      (Document.record_command d c nd).history_index = d.history_index ∧
      (Document.record_command d c nd).next_version = d.next_version ∧
      (Document.record_command d c nd).sheet = nd.sheet ∧
      (Document.record_command d c nd).view = nd.view ∧
      (Document.record_command d c nd).transient = nd.transient ∧
      (Document.record_command d c nd).persistent = nd.persistent) ∧
    ((run_all Document.c3doc Document.c3cmds).2 = none ∧
      (run_all Document.c3doc Document.c3cmds).1.history.length
        = Document.c3doc.history.length + 1 ∧
      ((run_all Document.c3doc Document.c3cmds).1.top_entry.sheet.get_frame 0).bind
          (fun f => f.get_hitbox "h") = some ⟨"h", ⟨5, 0⟩, (10, 10)⟩ ∧
      ((run_all Document.c3doc Document.c3cmds).1.sheet.get_frame 0).bind
          (fun f => f.get_hitbox "h") = some ⟨"h", ⟨5, 0⟩, (10, 10)⟩) := by
  constructor
  · intro d c nd h
    rw [Document.record_command_transient d c nd h]
    exact ⟨rfl, rfl, rfl, rfl, rfl, rfl, rfl⟩
  · decide

set_option maxRecDepth 100000 in
theorem C3_gesture_isolation_witness :
    (Document.record_command Document.c6doc DocumentCommand.BeginHitboxDrag
      Document.c6doc).history = Document.c6doc.history :=
  (C3_gesture_isolation.1 Document.c6doc DocumentCommand.BeginHitboxDrag
    Document.c6doc (by decide)).1

set_option maxRecDepth 100000 in
/-- C5: the view-only merge rule of `record_command`: with no gesture, the
sheet unchanged and the view changed, the top entry's view is overwritten in
place when the entry below the top carries the same sheet as the top, and a
new entry carrying the unchanged sheet is pushed otherwise; two consecutive
zoom commands on a fresh document leave exactly one entry beyond the
baseline. -/
theorem C5_view_only_merge :
    (∀ (d : Document) (c : DocumentCommand) (nd : Document),
      nd.transient = none → d.top_entry.sheet = nd.sheet → d.top_entry.view ≠ nd.view →
      ((d.history_index > 0 ∧
          (d.history.getD (d.history_index - 1) default).sheet = d.top_entry.sheet) →
        Document.record_command d c nd =
          { d with sheet := nd.sheet, view := nd.view, transient := none,
                   persistent := nd.persistent,
                   history :=
                     (d.history.set d.history_index
                       ({ d.top_entry with view := nd.view })) }) ∧
      (¬(d.history_index > 0 ∧
          (d.history.getD (d.history_index - 1) default).sheet = d.top_entry.sheet) →
        Document.record_command d c nd =
          Document.push_undo_state
            ({ d with sheet := nd.sheet, view := nd.view, transient := none,
                      persistent := nd.persistent })
            ⟨some c, nd.sheet, nd.view, d.next_version⟩)) ∧
    ((run_all (Document.new 0)
        [DocumentCommand.WorkbenchZoomIn, DocumentCommand.WorkbenchZoomIn]).2 = none ∧
      (run_all (Document.new 0)
        [DocumentCommand.WorkbenchZoomIn, DocumentCommand.WorkbenchZoomIn]).1.history.length
        = 2) := by
  constructor
  · intro d c nd h1 h2 h3
    exact ⟨fun hm => Document.record_command_view_merge d c nd h1 h2 h3 hm.1 hm.2,
      fun hm => Document.record_command_view_push d c nd h1 h2 h3 hm⟩
  · decide

set_option maxRecDepth 100000 in
theorem C5_view_only_merge_witness :
    Document.record_command (Document.new 0) DocumentCommand.WorkbenchZoomIn
        ({ Document.new 0 with view := (Document.new 0).view.workbench_zoom_in }) =
      Document.push_undo_state
        ({ Document.new 0 with
           sheet := ({ Document.new 0 with
             view := (Document.new 0).view.workbench_zoom_in } : Document).sheet,
           view := ({ Document.new 0 with
             view := (Document.new 0).view.workbench_zoom_in } : Document).view,
           transient := none,
           persistent := ({ Document.new 0 with
             view := (Document.new 0).view.workbench_zoom_in } : Document).persistent })
        ⟨some DocumentCommand.WorkbenchZoomIn,
          ({ Document.new 0 with
            view := (Document.new 0).view.workbench_zoom_in } : Document).sheet,
          ({ Document.new 0 with
            view := (Document.new 0).view.workbench_zoom_in } : Document).view,
          (Document.new 0).next_version⟩ :=
  (C5_view_only_merge.1 (Document.new 0) DocumentCommand.WorkbenchZoomIn
      ({ Document.new 0 with view := (Document.new 0).view.workbench_zoom_in })
      (by decide) (by decide) (by decide)).2 (by decide)

/-- C7 as stated is refuted by the code: at the bottom of the history a
gesture-free `undo` returns Ok but leaves `timeline_is_playing` set. -/
theorem C7_counterexample :
    Document.c7doc.transient = none ∧
    Document.c7doc.undo = (Document.c7doc, none) ∧
    Document.c7doc.persistent.timeline_is_playing = true := by decide

/-- C7 (amended): undo and redo fail with `UndoOperationNowAllowed` exactly
when a gesture is live; otherwise they return Ok, and when the cursor can
move they step it, restore sheet and view from the entry at the new index
and clear the playing flag; at the history boundary they change nothing. -/
theorem C7_undo_redo_contract :
    (∀ (d : Document) (t : Transient), d.transient = some t →
      d.undo = (d, some StateError.UndoOperationNowAllowed) ∧
      d.redo = (d, some StateError.UndoOperationNowAllowed)) ∧
    (∀ d : Document, d.transient = none → d.undo.2 = none ∧ d.redo.2 = none) ∧
    (∀ d : Document, d.transient = none → 0 < d.history_index →
      d.undo = (Document.undo_moved d, none)) ∧
    (∀ d : Document, d.transient = none → d.history_index < d.history.length - 1 →
      d.redo = (Document.redo_moved d, none)) := by
  refine ⟨fun d t ht => ⟨Document.undo_gesture d t ht, Document.redo_gesture d t ht⟩,
    fun d ht => ⟨?_, ?_⟩,
    fun d ht hi => Document.undo_move d ht hi,
    fun d ht hi => Document.redo_move d ht hi⟩
  · by_cases hi : 0 < d.history_index
    · rw [Document.undo_move d ht hi]
    · rw [Document.undo_stay d ht (by omega)]
  · by_cases hi : d.history_index < d.history.length - 1
    · rw [Document.redo_move d ht hi]
    · rw [Document.redo_stay d ht hi]

theorem C7_contract_witness :
    (run_all (Document.new 0) [DocumentCommand.EndImport 0 5]).1.undo =
      (Document.undo_moved (run_all (Document.new 0) [DocumentCommand.EndImport 0 5]).1,
        none) :=
  C7_undo_redo_contract.2.2.1 (run_all (Document.new 0) [DocumentCommand.EndImport 0 5]).1
    (by decide) (by decide)

/-- C10: with no active gesture, `undo` at the bottom of the history and
`redo` at the top return Ok and leave the document entirely unchanged. -/
theorem C10_boundary_noop :
    (∀ d : Document, d.transient = none → d.history_index = 0 → d.undo = (d, none)) ∧
    (∀ d : Document, d.transient = none → ¬d.history_index < d.history.length - 1 →
      d.redo = (d, none)) :=
  ⟨fun d ht hi => Document.undo_stay d ht hi,
   fun d ht hi => Document.redo_stay d ht hi⟩

theorem C10_boundary_witness :
    Document.c7doc.undo = (Document.c7doc, none) ∧
    Document.c7doc.redo = (Document.c7doc, none) :=
  ⟨C10_boundary_noop.1 Document.c7doc (by decide) (by decide),
   C10_boundary_noop.2 Document.c7doc (by decide) (by decide)⟩

/-- Splitting an iterated undo. -/
theorem undo_n_add (d : Document) (m n : Nat) :
    undo_n d (m + n) = undo_n (undo_n d m) n := by
  induction m generalizing d with
  | zero =>
    have h0 : undo_n d 0 = d := rfl
    rw [Nat.zero_add, h0]
  | succ m ih =>
    show undo_n d (m + 1 + n) = undo_n (undo_n d.undo.1 m) n
    have he : m + 1 + n = (m + n) + 1 := by omega
    rw [he]
    show undo_n d.undo.1 (m + n) = undo_n (undo_n d.undo.1 m) n
    exact ih d.undo.1

set_option maxRecDepth 1000000 in
/-- C4: the history invariant (non-empty, cursor in bounds, at most 100
entries) holds for a new document and is preserved by `process_command`;
a push onto a full history evicts the oldest entry and keeps the cursor at
99; after the 150-import stress run the history holds exactly 100 entries
and the bottom of the undo chain is the state after the first 51 imports. -/
theorem C4_history_invariant_and_cap :
    (∀ p : Nat, Wf (Document.new p)) ∧
    (∀ (d : Document) (c : DocumentCommand), Wf d →
      Wf (Document.process_command d c).1) ∧
    (∀ (d : Document) (e : HistoryEntry),
      d.history.length = 100 → d.history_index = 99 →
      (Document.push_undo_state d e).history = d.history.drop 1 ++ [e] ∧
      (Document.push_undo_state d e).history_index = 99) ∧
    ((run_all (Document.new 0) Document.imports150).2 = none ∧
      (run_all (Document.new 0) Document.imports150).1.history.length = 100 ∧
      (undo_n (run_all (Document.new 0) Document.imports150).1 99).sheet
        = ⟨(List.range 51).map (fun j => ⟨j, []⟩), [], none⟩ ∧
      (undo_n (run_all (Document.new 0) Document.imports150).1 99).sheet
        ≠ (Document.new 0).sheet) := by
  refine ⟨fun p => ⟨by simp [Document.new], by simp [Document.new],
      by simp [Document.new]⟩,
    fun d c hwf => Document.process_command_wf d c hwf,
    fun d e h1 h2 => Document.push_undo_state_full d e h1 h2, ?_⟩
  have hbig : (run_all (Document.new 0) Document.imports150).2 = none ∧
      (run_all (Document.new 0) Document.imports150).1.history.length = 100 ∧
      (run_all (Document.new 0) Document.imports150).1.transient = none ∧
      (run_all (Document.new 0) Document.imports150).1.history_index = 99 ∧
      ((run_all (Document.new 0) Document.imports150).1.history.getD 0 default).sheet
        = ⟨(List.range 51).map (fun j => ⟨j, []⟩), [], none⟩ := by decide
  obtain ⟨hr, hlen, htr, hidx, hbot⟩ := hbig
  obtain ⟨-, -, -, hsheet⟩ :=
    Document.undo_n_spec 99 (run_all (Document.new 0) Document.imports150).1 htr
      (by omega)
  refine ⟨hr, hlen, ?_, ?_⟩
  · rw [hsheet, if_neg (by omega : ¬(99 : Nat) = 0), hidx]
    exact hbot
  · rw [hsheet, if_neg (by omega : ¬(99 : Nat) = 0), hidx]
    have hb : ((run_all (Document.new 0) Document.imports150).1.history.getD
        (99 - 99) default).sheet
        = ⟨(List.range 51).map (fun j => ⟨j, []⟩), [], none⟩ := hbot
    rw [hb]
    decide

theorem C4_invariant_witness :
    Wf (Document.process_command (Document.new 0) (DocumentCommand.EndImport 0 1)).1 :=
  C4_history_invariant_and_cap.2.1 (Document.new 0) (DocumentCommand.EndImport 0 1)
    (by decide)

set_option maxRecDepth 1000000 in
set_option maxHeartbeats 12000000 in
/-- C1 as stated is refuted by the code: a gesture-free run of 100 commands
that all succeed and mutate the sheet overflows the 100-entry history, the
baseline entry is evicted, and 100 undos no longer restore the initial
sheet. -/
theorem C1_counterexample :
    Wf (Document.new 0) ∧ (Document.new 0).transient = none ∧
    (Document.new 0).sheet = (Document.new 0).top_entry.sheet ∧
    mutating_ok (Document.new 0) Document.imports100 = true ∧
    (run_all (Document.new 0) Document.imports100).2 = none ∧
    (undo_n (run_all (Document.new 0) Document.imports100).1
        Document.imports100.length).sheet ≠ (Document.new 0).sheet := by
  have hlen100 : Document.imports100.length = 100 := by decide
  have hbig : Wf (Document.new 0) ∧ (Document.new 0).transient = none ∧
      (Document.new 0).sheet = (Document.new 0).top_entry.sheet ∧
      mutating_ok (Document.new 0) Document.imports100 = true ∧
      (run_all (Document.new 0) Document.imports100).2 = none ∧
      (run_all (Document.new 0) Document.imports100).1.transient = none ∧
      (run_all (Document.new 0) Document.imports100).1.history_index = 99 ∧
      ((run_all (Document.new 0) Document.imports100).1.history.getD 0 default).sheet
        = ⟨[⟨0, []⟩], [], none⟩ := by decide
  obtain ⟨h1, h2, h3, h4, h5, htr, hidx, hbot⟩ := hbig
  refine ⟨h1, h2, h3, h4, h5, ?_⟩
  rw [hlen100]
  generalize (run_all (Document.new 0) Document.imports100).1 = D at htr hidx hbot ⊢
  rw [show (100 : Nat) = 99 + 1 from rfl, undo_n_add D 99 1]
  obtain ⟨hh, hi2, ht2, hs2⟩ := Document.undo_n_spec 99 D htr (by omega)
  have hstay : (undo_n D 99).undo = (undo_n D 99, none) :=
    Document.undo_stay _ ht2 (by omega)
  have h1step : undo_n (undo_n D 99) 1 = undo_n D 99 := by
    show undo_n (undo_n D 99).undo.1 0 = undo_n D 99
    rw [hstay]
    exact rfl
  rw [h1step, hs2, if_neg (by omega : ¬(99 : Nat) = 0), hidx]
  have hb : (D.history.getD (99 - 99) default).sheet = ⟨[⟨0, []⟩], [], none⟩ := by
    rw [show (99 - 99 : Nat) = 0 from rfl]
    exact hbot
  rw [hb]
  decide

/-- C1 (amended): for a well-formed gesture-free document whose live sheet
matches its top history entry, any run of at most 99 commands that all
succeed and mutate the sheet can be fully unwound by as many undos,
restoring the initial sheet, and replayed by as many redos. -/
theorem C1_undo_redo_round_trip (d0 : Document) (cs : List DocumentCommand)
    (hwf : Wf d0) (ht : d0.transient = none)
    (hsync : d0.sheet = d0.top_entry.sheet)
    (hn : cs.length ≤ 99) (hm : mutating_ok d0 cs = true) :
    (run_all d0 cs).2 = none ∧
    (undo_n (run_all d0 cs).1 cs.length).sheet = d0.sheet ∧
    (redo_n (undo_n (run_all d0 cs).1 cs.length) cs.length).sheet
      = (run_all d0 cs).1.sheet :=
  round_trip_core d0 cs hwf ht hsync hn hm

theorem C1_round_trip_witness :
    (run_all (Document.new 0) [DocumentCommand.EndImport 0 7]).2 = none ∧
    (undo_n (run_all (Document.new 0) [DocumentCommand.EndImport 0 7]).1 1).sheet
      = (Document.new 0).sheet ∧
    (redo_n (undo_n (run_all (Document.new 0) [DocumentCommand.EndImport 0 7]).1 1)
        1).sheet
      = (run_all (Document.new 0) [DocumentCommand.EndImport 0 7]).1.sheet :=
  C1_undo_redo_round_trip (Document.new 0) [DocumentCommand.EndImport 0 7]
    (by decide) rfl rfl (by decide) (by decide)

set_option maxRecDepth 100000 in
/-- C6 as stated is refuted by the code: the divisor only counts selected
keyframes at or before the dragged one, but the delta is then applied to
every selected keyframe, so the third keyframe (after the dragged one) moves
from 100 ms to 115 ms instead of staying unchanged. -/
theorem C6_counterexample :
    ((Document.update_keyframe_duration_drag Document.c6doc 30 1).map
        (fun d => (d.sheet.get_animation "anim").bind
          (fun a => (a.timeline[2]?).map (fun k => k.duration)))
      = Except.ok (some 115)) ∧
    ((Document.c6doc.sheet.get_animation "anim").bind
        (fun a => (a.timeline[2]?).map (fun k => k.duration)) = some 100) := by
  decide

set_option maxRecDepth 100000 in
/-- C6 (amended): the per-frame delta is the drag offset divided (truncated
integer division) by the number of selected keyframes at or before the
dragged one (at least 1), clamped below by the caller-supplied minimum, and
it is applied to every selected keyframe; unselected keyframes are
untouched. On three 100 ms keyframes with the middle one dragged by +30 ms
all three end at 115 ms. -/
theorem C6_duration_drag_distribution :
    (∀ (d : Document) (t m : Nat) (d' : Document) (an : String)
      (A : Animation) (ms : MultiSelection Nat) (kd : KeyframeDuration),
      d.view.workbench_item = some (WorkbenchItem.Animation an) →
      d.sheet.get_animation an = some A →
      d.view.selection = some (Selection.Keyframe ms) →
      d.transient = some (Transient.KeyframeDuration kd) →
      Document.update_keyframe_duration_drag d t m = Except.ok d' →
      ∃ A', d'.sheet.get_animation an = some A' ∧
        (∀ j, j ∉ ms.items → A'.timeline[j]? = A.timeline[j]?) ∧
        (∀ j dj, j ∈ ms.items → kd.initial_duration.lookup j = some dj →
          A'.timeline[j]? = (A.timeline[j]?).map
            (fun kf => { kf with duration :=
              (max ((dj : Int) + Int.tdiv ((t : Int) - ((kd.reference_clock : Nat) : Int))
                ((((ms.items.filter (fun i => i ≤ kd.frame_being_dragged)).length.max 1 : Nat) : Int)))
                ((m : Nat) : Int)).toNat }))) ∧
    ((Document.update_keyframe_duration_drag Document.c6doc 30 1).map
        (fun d => (d.sheet.get_animation "anim").map
          (fun a => a.timeline.map (fun k => k.duration)))
      = Except.ok (some [115, 115, 115])) :=
  ⟨fun d t m d' an A ms kd hwb hA hsel htr hok =>
    Document.update_kdd_spec d t m d' an A ms kd hwb hA hsel htr hok, by decide⟩

set_option maxRecDepth 100000 in
theorem C6_duration_drag_witness :
    (Document.c6res.sheet.get_animation "anim").isSome = true :=
  match C6_duration_drag_distribution.1 Document.c6doc 30 1 Document.c6res "anim"
      ⟨"anim", [⟨0, 100, ⟨0, 0⟩⟩, ⟨0, 100, ⟨0, 0⟩⟩, ⟨0, 100, ⟨0, 0⟩⟩], false⟩
      ⟨[0, 1, 2], 1⟩ ⟨[(0, 100), (1, 100), (2, 100)], 1, 0⟩
      rfl (by decide) rfl rfl (by decide) with
  | ⟨A', h1, _, _⟩ => by rw [h1]; rfl

/-- C8 as stated is refuted by the code: the clock advances whenever
playback is on, before the workbench subject is examined, so a playing
document with no workbench subject still advances its clock. -/
theorem C8_counterexample :
    Document.c8bad.persistent.timeline_is_playing = true ∧
    Document.c8bad.view.workbench_item = none ∧
    (Document.c8bad.tick 5).view.timeline_clock = 5 := by decide

/-- C8 (amended): `tick` leaves the clock alone when playback is off; when
playing it always adds the delta first, even with no animation subject; a
looping animation then wraps the clock modulo its positive duration, a
non-looping one clamps to the duration and stops at the end and keeps
playing strictly before it, and a degenerate animation (no duration or zero)
stops playback and resets the clock; the sample two-keyframe looping
animation ticked by 200 ms from 0 ends at 50 ms, still playing. -/
theorem C8_playback_tick :
    (∀ (d : Document) (delta : Nat), d.persistent.timeline_is_playing = false →
      (d.tick delta).view.timeline_clock = d.view.timeline_clock ∧
      (d.tick delta).persistent.timeline_is_playing = false) ∧
    (∀ (d : Document) (delta : Nat), d.persistent.timeline_is_playing = true →
      d.view.workbench_item = none →
      (d.tick delta).view.timeline_clock = d.view.timeline_clock + delta) ∧
    (∀ (d : Document) (delta : Nat) (an : String) (a : Animation) (dur : Nat),
      d.persistent.timeline_is_playing = true →
      d.view.workbench_item = some (WorkbenchItem.Animation an) →
      d.sheet.get_animation an = some a →
      a.get_duration = some dur → 0 < dur → a.is_looping = true →
      (d.tick delta).view.timeline_clock = (d.view.timeline_clock + delta) % dur ∧
      (d.tick delta).persistent.timeline_is_playing = true) ∧
    (∀ (d : Document) (delta : Nat) (an : String) (a : Animation) (dur : Nat),
      d.persistent.timeline_is_playing = true →
      d.view.workbench_item = some (WorkbenchItem.Animation an) →
      d.sheet.get_animation an = some a →
      a.get_duration = some dur → 0 < dur → a.is_looping = false →
      d.view.timeline_clock + delta ≥ dur →
      (d.tick delta).view.timeline_clock = dur ∧
      (d.tick delta).persistent.timeline_is_playing = false) ∧
    (∀ (d : Document) (delta : Nat) (an : String) (a : Animation) (dur : Nat),
      d.persistent.timeline_is_playing = true →
      d.view.workbench_item = some (WorkbenchItem.Animation an) →
      d.sheet.get_animation an = some a →
      a.get_duration = some dur → 0 < dur → a.is_looping = false →
      d.view.timeline_clock + delta < dur →
      (d.tick delta).view.timeline_clock = d.view.timeline_clock + delta ∧
      (d.tick delta).persistent.timeline_is_playing = true) ∧
    (∀ (d : Document) (delta : Nat) (an : String) (a : Animation),
      d.persistent.timeline_is_playing = true →
      d.view.workbench_item = some (WorkbenchItem.Animation an) →
      d.sheet.get_animation an = some a →
      (a.get_duration = none ∨ a.get_duration = some 0) →
      (d.tick delta).view.timeline_clock = 0 ∧
      (d.tick delta).persistent.timeline_is_playing = false) ∧
    ((Document.c8doc.tick 200).view.timeline_clock = 50 ∧
      (Document.c8doc.tick 200).persistent.timeline_is_playing = true) :=
  ⟨fun d delta h => Document.tick_not_playing d delta h,
   fun d delta hp hwb => Document.tick_playing_no_subject d delta hp hwb,
   fun d delta an a dur hp hwb ha hd hpos hl =>
     Document.tick_looping d delta an a dur hp hwb ha hd hpos hl,
   fun d delta an a dur hp hwb ha hd hpos hl hend =>
     Document.tick_nonloop_end d delta an a dur hp hwb ha hd hpos hl hend,
   fun d delta an a dur hp hwb ha hd hpos hl hmid =>
     Document.tick_nonloop_mid d delta an a dur hp hwb ha hd hpos hl hmid,
   fun d delta an a hp hwb ha hd => Document.tick_degenerate d delta an a hp hwb ha hd,
   by decide⟩

theorem C8_playback_witness :
    (Document.c8doc.tick 200).view.timeline_clock
      = (Document.c8doc.view.timeline_clock + 200) % 150 :=
  (C8_playback_tick.2.2.1 Document.c8doc 200 "a"
    ⟨"a", [⟨0, 100, ⟨0, 0⟩⟩, ⟨0, 50, ⟨0, 0⟩⟩], true⟩ 150
    rfl rfl (by decide) (by decide) (by decide) rfl).1

/-- C9: ending a rename whose new name collides with an existing entity of
the same kind fails through `process_command` with the matching
AlreadyExists error, leaving the document unchanged; on success the entity
is renamed, the selection follows the new name, and for animations the
workbench item follows it when it referenced the old name. -/
theorem C9_rename_collision :
    (∀ (d : Document) (ms : MultiSelection String) (new_name : String),
      d.view.selection = some (Selection.Animation ms) →
      d.transient = some (Transient.Rename ⟨new_name⟩) →
      ms.last_touched_in_range ≠ new_name →
      d.sheet.has_animation new_name = true →
      Document.process_command d DocumentCommand.EndRenameSelection
        = (d, some StateError.AnimationAlreadyExists)) ∧
    (∀ (d : Document) (ms : MultiSelection String) (new_name : String) (p : Nat) (fr : Frame),
      d.view.selection = some (Selection.Hitbox ms) →
      d.transient = some (Transient.Rename ⟨new_name⟩) →
      ms.last_touched_in_range ≠ new_name →
      d.view.workbench_item = some (WorkbenchItem.Frame p) →
      d.sheet.get_frame p = some fr →
      fr.has_hitbox new_name = true →
      Document.process_command d DocumentCommand.EndRenameSelection
        = (d, some StateError.HitboxAlreadyExists)) ∧
    (∀ (d : Document) (ms : MultiSelection String) (new_name : String) (A : Animation),
      d.view.selection = some (Selection.Animation ms) →
      d.transient = some (Transient.Rename ⟨new_name⟩) →
      ms.last_touched_in_range ≠ new_name →
      d.sheet.has_animation new_name = false →
      d.sheet.get_animation ms.last_touched_in_range = some A →
      ∃ d', Document.end_rename_selection d = Except.ok d' ∧
        d'.sheet = d.sheet.set_animation ms.last_touched_in_range
          { A with name := new_name } ∧
        d'.view.selection = some (Selection.Animation ⟨[new_name], new_name⟩) ∧
        d'.view.workbench_item = (if d.view.workbench_item
            = some (WorkbenchItem.Animation ms.last_touched_in_range)
          then some (WorkbenchItem.Animation new_name) else d.view.workbench_item)) ∧
    (∀ (d : Document) (ms : MultiSelection String) (new_name : String) (p : Nat)
      (fr : Frame) (hb : Hitbox),
      d.view.selection = some (Selection.Hitbox ms) →
      d.transient = some (Transient.Rename ⟨new_name⟩) →
      ms.last_touched_in_range ≠ new_name →
      d.view.workbench_item = some (WorkbenchItem.Frame p) →
      d.sheet.get_frame p = some fr →
      fr.has_hitbox new_name = false →
      fr.get_hitbox ms.last_touched_in_range = some hb →
      ∃ d', Document.end_rename_selection d = Except.ok d' ∧
        d'.sheet = d.sheet.set_frame p
          (fr.set_hitbox ms.last_touched_in_range { hb with name := new_name }) ∧
        d'.view.selection = some (Selection.Hitbox ⟨[new_name], new_name⟩)) := by
  refine ⟨?_, ?_,
    fun d ms nn A h1 h2 h3 h4 h5 =>
      Document.end_rename_animation_success d ms nn A h1 h2 h3 h4 h5,
    fun d ms nn p fr hb h1 h2 h3 h4 h5 h6 h7 =>
      Document.end_rename_hitbox_success d ms nn p fr hb h1 h2 h3 h4 h5 h6 h7⟩
  · intro d ms nn h1 h2 h3 h4
    have h := Document.end_rename_animation_collision d ms nn h1 h2 h3 h4
    have ha : Document.apply_command d DocumentCommand.EndRenameSelection
        = Except.error StateError.AnimationAlreadyExists := by
      unfold Document.apply_command
      exact h
    unfold Document.process_command
    rw [ha]
  · intro d ms nn p fr h1 h2 h3 h4 h5 h6
    have h := Document.end_rename_hitbox_collision d ms nn p fr h1 h2 h3 h4 h5 h6
    have ha : Document.apply_command d DocumentCommand.EndRenameSelection
        = Except.error StateError.HitboxAlreadyExists := by
      unfold Document.apply_command
      exact h
    unfold Document.process_command
    rw [ha]

theorem C9_rename_witness :
    Document.process_command Document.c9doc DocumentCommand.EndRenameSelection
      = (Document.c9doc, some StateError.AnimationAlreadyExists) :=
  C9_rename_collision.1 Document.c9doc ⟨["walk"], "walk"⟩ "run" rfl rfl
    (by decide) (by decide)

end Tiger